import Mathlib

/-!
# Verification of the ECST VMware automation console (`ecst-vmware.py`)

This file is a shallow embedding, in Lean 4, of the configuration-driven
command-construction and confirmation-gated workflow engine of
`src/ecst-vmware.py`, together with proofs of the behavioural claims made
about it.

Modelling conventions:
* Python strings are Lean `String`s; `str.strip()`, `str.lower()` and
  `str.upper()` are modelled for the ASCII range (the only range the
  program's token comparisons exercise).
* Operator input is an explicit list of input lines, consumed in order;
  every `input()` call (including "Press Enter to continue" pauses) reads
  one line.
* Terminal output and backend invocations are recorded as an explicit
  event trace; `subprocess.run` is an oracle `Env.exitOf` mapping the
  invocation to its integer exit status.
* `sys.exit(n)` is the outcome `Outcome.exited n`; a normal `return` to
  the calling menu is `Outcome.ret` carrying the unconsumed input lines.
* Filesystem paths are their file names relative to the script directory
  (`SCRIPT_DIR` is dropped, `MODULES_DIR` becomes the `modules/` prefix).
* The JSON round-trip behaviour of `json.load`/`json.dump(..., indent=2)`
  is embedded as an explicit JSON value type with a serializer and a
  recursive-descent parser; numbers are modelled as integers (the only
  number shape the configuration document uses) and strings as sequences
  of Unicode scalar values.
-/

/-! ## Python string primitives -/

/-- Whitespace characters stripped by Python's `str.strip()` (ASCII range). -/
def isPyWs (c : Char) : Bool :=
  c == ' ' || c == '\t' || c == '\n' || c == '\r' || c == '\x0b' || c == '\x0c'

/-- Python `str.strip()` (ASCII whitespace). -/
def pyStrip (s : String) : String :=
  ⟨((s.data.dropWhile isPyWs).reverse.dropWhile isPyWs).reverse⟩

/-- ASCII lower-casing of one character, as in Python `str.lower()`. -/
def asciiLower (c : Char) : Char :=
  if 'A' ≤ c && c ≤ 'Z' then Char.ofNat (c.toNat + 32) else c

/-- ASCII upper-casing of one character, as in Python `str.upper()`. -/
def asciiUpper (c : Char) : Char :=
  if 'a' ≤ c && c ≤ 'z' then Char.ofNat (c.toNat - 32) else c

/-- Python `str.lower()` (ASCII range). -/
def pyLower (s : String) : String := ⟨s.data.map asciiLower⟩

/-- Python `str.upper()` (ASCII range). -/
def pyUpper (s : String) : String := ⟨s.data.map asciiUpper⟩

/-- `get_input(prompt, default)`: strips the raw line; an empty stripped
line is replaced by the default when a default is given. -/
def get_input (raw : String) (dflt : String := "") : String :=
  let s := pyStrip raw
  if dflt = "" then s else if s = "" then dflt else s

/-- `confirm_action`: the response is affirmative iff, stripped and
lower-cased, it is `y` or `yes`. -/
def confirm_action (resp : String) : Bool :=
  let r := pyLower (pyStrip resp)
  r == "y" || r == "yes"

/-! ## Catalogs (`VM_TEMPLATES`, `VM_SIZES`, `OS_TYPES`) -/

/-- One entry of `VM_TEMPLATES`. -/
structure TemplateEntry where
  name : String
  template : String
  description : String
deriving DecidableEq, Repr

/-- One entry of `VM_SIZES`. -/
structure SizeSpec where
  cpu : Nat
  memory_gb : Nat
  disk_gb : Nat
deriving DecidableEq, Repr

/-- One entry of `OS_TYPES`. -/
structure OsTypeEntry where
  name : String
  guest_id : String
  description : String
deriving DecidableEq, Repr

/-- The `VM_TEMPLATES` dictionary. -/
def VM_TEMPLATES : List (String × TemplateEntry) :=
  [ ("1", ⟨"Splunk", "template-splunk-enterprise", "Splunk Enterprise Server"⟩),
    ("2", ⟨"Cribl", "template-cribl-stream", "Cribl Stream/Edge"⟩),
    ("3", ⟨"Forescout", "template-forescout", "Forescout CounterACT"⟩),
    ("4", ⟨"Windows Server", "template-windows-2022", "Windows Server 2022"⟩),
    ("5", ⟨"RHEL 9", "template-rhel9", "Red Hat Enterprise Linux 9"⟩),
    ("6", ⟨"Ubuntu 22.04", "template-ubuntu-2204", "Ubuntu Server 22.04 LTS"⟩) ]

/-- The `VM_SIZES` dictionary (keyed by size *names*, not numbers). -/
def VM_SIZES : List (String × SizeSpec) :=
  [ ("Small", ⟨2, 4, 50⟩),
    ("Medium", ⟨4, 8, 100⟩),
    ("Large", ⟨8, 16, 200⟩),
    ("XLarge", ⟨16, 32, 500⟩) ]

/-- The `OS_TYPES` dictionary. -/
def OS_TYPES : List (String × OsTypeEntry) :=
  [ ("1", ⟨"RHEL", "rhel9_64Guest", "Red Hat Enterprise Linux"⟩),
    ("2", ⟨"Ubuntu", "ubuntu64Guest", "Ubuntu Linux"⟩),
    ("3", ⟨"Windows", "windows2019srv_64Guest", "Windows Server"⟩),
    ("4", ⟨"CentOS", "centos9_64Guest", "CentOS Stream"⟩),
    ("5", ⟨"Debian", "debian11_64Guest", "Debian Linux"⟩) ]

/-- The template lookup as performed by `deploy_vm_from_template`
(line 732: the raw selection is stripped by `get_input` and upper-cased
before the dictionary membership test). -/
def templateLookup (raw : String) : Option TemplateEntry :=
  VM_TEMPLATES.lookup (pyUpper (get_input raw))

/-- The size lookup as performed by both VM deployment flows
(lines 760-761 and 887-888: the stripped, defaulted input is matched
against `VM_SIZES` verbatim, with no case normalization). -/
def sizeLookup (raw : String) (dflt : String) : Option SizeSpec :=
  VM_SIZES.lookup (get_input raw dflt)

/-- The OS-type lookup as performed by `deploy_standard_vm`
(lines 875-876: the stripped input, defaulted to `"1"`, is matched
against `OS_TYPES` with no explicit case mapping in the source). -/
def osLookup (raw : String) : Option OsTypeEntry :=
  OS_TYPES.lookup (get_input raw "1")

/-! ## JSON documents (`json.load` / `json.dump(..., indent=2)`)

The configuration document is read with `json.load` and written with
`json.dump(config, f, indent=2)` (default `ensure_ascii=True`). The JSON
value space is embedded below with numbers restricted to integers (the
only number shape the configuration document uses). -/

/-- A JSON document: the value space of Python's `json` module with
numbers restricted to integers. Object members keep their textual order,
which is what `json.dump` serializes. -/
inductive JVal where
  | null : JVal
  | bool (b : Bool) : JVal
  | num (n : Int) : JVal
  | str (s : List Char) : JVal
  | arr (elems : List JVal) : JVal
  | obj (members : List (List Char × JVal)) : JVal

/-- Lower-case hexadecimal digit, as used by Python's `\uXXXX` escapes. -/
def hexDigit (n : Nat) : Char :=
  if n < 10 then Char.ofNat (48 + n) else Char.ofNat (87 + n)

/-- The four hex digits of a code unit below `0x10000`. -/
def hexQuad (n : Nat) : List Char :=
  [hexDigit (n / 4096 % 16), hexDigit (n / 256 % 16),
   hexDigit (n / 16 % 16), hexDigit (n % 16)]

/-- A `\uXXXX` escape for a code unit below `0x10000`. -/
def uEscape (n : Nat) : List Char := '\\' :: 'u' :: hexQuad n

/-- Serialization of one character inside a JSON string, following
Python's `ensure_ascii=True` encoder: short escapes for the usual control
characters, `\uXXXX` for other control and all non-ASCII characters
(surrogate pairs above `0xFFFF`), the character itself otherwise. -/
def escChar (c : Char) : List Char :=
  if c = '"' then ['\\', '"']
  else if c = '\\' then ['\\', '\\']
  else if c = '\n' then ['\\', 'n']
  else if c = '\r' then ['\\', 'r']
  else if c = '\t' then ['\\', 't']
  else if c.toNat = 8 then ['\\', 'b']
  else if c.toNat = 12 then ['\\', 'f']
  else if c.toNat < 32 then uEscape c.toNat
  else if c.toNat < 127 then [c]
  else if c.toNat < 65536 then uEscape c.toNat
  else uEscape ((c.toNat - 65536) / 1024 + 55296) ++
       uEscape ((c.toNat - 65536) % 1024 + 56320)

/-- The serialized body of a JSON string (without the quotes). -/
def escBody (s : List Char) : List Char := (s.map escChar).flatten

/-- A serialized JSON string, quotes included. -/
def escString (s : List Char) : List Char := '"' :: (escBody s ++ ['"'])

/-- Decimal digits of a natural number, most significant first
(fuel-indexed; any fuel above the argument is enough). -/
def natToCharsAux : Nat → Nat → List Char
  | 0, _ => []
  | fuel + 1, n =>
    if n < 10 then [Char.ofNat (48 + n)]
    else natToCharsAux fuel (n / 10) ++ [Char.ofNat (48 + n % 10)]

/-- Decimal digits of a natural number, most significant first. -/
def natToChars (n : Nat) : List Char := natToCharsAux (n + 1) n

/-- Python `repr` of an integer. -/
def intToChars (n : Int) : List Char :=
  if n < 0 then '-' :: natToChars (-n).toNat else natToChars n.toNat

/-- Indentation emitted by `json.dump(..., indent=2)`: `n` spaces. -/
def jIndent (n : Nat) : List Char := List.replicate n ' '

mutual

/-- `json.dump(v, f, indent=2)` at current indentation width `L`. -/
def jdumpVal : JVal → Nat → List Char
  | .null, _ => ['n', 'u', 'l', 'l']
  | .bool true, _ => ['t', 'r', 'u', 'e']
  | .bool false, _ => ['f', 'a', 'l', 's', 'e']
  | .num n, _ => intToChars n
  | .str s, _ => escString s
  | .arr [], _ => ['[', ']']
  | .arr (x :: xs), L =>
      ['[', '\n'] ++ jIndent (L + 2) ++ jdumpVal x (L + 2) ++
        jdumpArr xs (L + 2) ++ ['\n'] ++ jIndent L ++ [']']
  | .obj [], _ => ['\x7b', '\x7d']
  | .obj ((k, v) :: ms), L =>
      ['\x7b', '\n'] ++ jIndent (L + 2) ++ escString k ++ [':', ' '] ++
        jdumpVal v (L + 2) ++ jdumpObj ms (L + 2) ++ ['\n'] ++ jIndent L ++ ['\x7d']

/-- Remaining array items, each preceded by `",\n"` and indentation. -/
def jdumpArr : List JVal → Nat → List Char
  | [], _ => []
  | x :: xs, L => [',', '\n'] ++ jIndent L ++ jdumpVal x L ++ jdumpArr xs L

/-- Remaining object members, each preceded by `",\n"` and indentation. -/
def jdumpObj : List (List Char × JVal) → Nat → List Char
  | [], _ => []
  | (k, v) :: ms, L =>
      [',', '\n'] ++ jIndent L ++ escString k ++ [':', ' '] ++
        jdumpVal v L ++ jdumpObj ms L

end

/-- `json.dumps(v, indent=2)` as a character sequence. -/
def jdumps (v : JVal) : List Char := jdumpVal v 0

/-- JSON whitespace. -/
def jWs (c : Char) : Bool := c == ' ' || c == '\t' || c == '\n' || c == '\r'

/-- Skip JSON whitespace. -/
def skipWs (cs : List Char) : List Char := cs.dropWhile jWs

/-- Numeric value of a hexadecimal digit character (either case). -/
def hexVal (c : Char) : Option Nat :=
  if 48 ≤ c.toNat ∧ c.toNat ≤ 57 then some (c.toNat - 48)
  else if 97 ≤ c.toNat ∧ c.toNat ≤ 102 then some (c.toNat - 87)
  else if 65 ≤ c.toNat ∧ c.toNat ≤ 70 then some (c.toNat - 55)
  else none

/-- Prepend a decoded character to a string-parse result. -/
def strCons (c : Char) (r : Option (List Char × List Char)) :
    Option (List Char × List Char) :=
  r.map (fun p => (c :: p.1, p.2))

/-- Combined value of four hexadecimal digit characters. -/
def decodeU (h1 h2 h3 h4 : Char) : Option Nat :=
  match hexVal h1, hexVal h2, hexVal h3, hexVal h4 with
  | some a, some b, some c, some d => some (((a * 16 + b) * 16 + c) * 16 + d)
  | _, _, _, _ => none

/-- The single-character short escapes (`\" \\ \/ \b \f \n \r \t`). -/
def escDecode (e : Char) : Option Char :=
  if e = '"' then some '"'
  else if e = '\\' then some '\\'
  else if e = '/' then some '/'
  else if e = 'b' then some (Char.ofNat 8)
  else if e = 'f' then some (Char.ofNat 12)
  else if e = 'n' then some '\n'
  else if e = 'r' then some '\r'
  else if e = 't' then some '\t'
  else none

/-- Decode the hex digits after `\u`, combining a high surrogate with a
following `\uXXXX` low surrogate the way Python's scanner does. -/
def readU (cs : List Char) : Option (Char × List Char) :=
  match cs with
  | h1 :: h2 :: h3 :: h4 :: rest =>
    match decodeU h1 h2 h3 h4 with
    | some n =>
      if n < 55296 ∨ 57344 ≤ n then some (Char.ofNat n, rest)
      else if n < 56320 then
        match rest with
        | b1 :: b2 :: g1 :: g2 :: g3 :: g4 :: rest2 =>
          if b1 = '\\' ∧ b2 = 'u' then
            match decodeU g1 g2 g3 g4 with
            | some m =>
              if 56320 ≤ m ∧ m < 57344 then
                some (Char.ofNat ((n - 55296) * 1024 + (m - 56320) + 65536), rest2)
              else none
            | none => none
          else none
        | _ => none
      else none
    | none => none
  | _ => none

/-- Decode one escape sequence after the backslash. -/
def readEsc (cs : List Char) : Option (Char × List Char) :=
  match cs with
  | [] => none
  | e :: rest =>
    if e = 'u' then readU rest
    else
      match escDecode e with
      | some d => some (d, rest)
      | none => none

/-- Parse the body of a JSON string after the opening quote, decoding
escapes. Returns the decoded characters and the input after the closing
quote. Fuel-indexed (one unit per decoded character; any fuel above the
input length is enough). -/
def parseStrBody : Nat → List Char → Option (List Char × List Char)
  | 0, _ => none
  | fuel + 1, cs =>
    match cs with
    | [] => none
    | c :: rest =>
      if c = '"' then some ([], rest)
      else if c = '\\' then
        match readEsc rest with
        | some (d, rest2) => strCons d (parseStrBody fuel rest2)
        | none => none
      else strCons c (parseStrBody fuel rest)

/-- Parse a complete JSON string body (fuel bounded by the input length,
which one decoded character per consumed input character can never
exhaust). -/
def parseStr (cs : List Char) : Option (List Char × List Char) :=
  parseStrBody (cs.length + 1) cs

/-- Read a maximal run of decimal digits, accumulating their value. -/
def readDigits : List Char → Nat → Nat × List Char
  | [], acc => (acc, [])
  | c :: cs, acc =>
    if c.isDigit then readDigits cs (acc * 10 + (c.toNat - 48))
    else (acc, c :: cs)

mutual

/-- Recursive-descent JSON value parser (fuel-indexed; the fuel bounds the
nesting and item count). Skips leading whitespace, then dispatches on the
first character, as Python's `json` scanner does. -/
def parseVal : Nat → List Char → Option (JVal × List Char)
  | 0, _ => none
  | fuel + 1, cs =>
    match skipWs cs with
    | [] => none
    | c :: cs' =>
      if c = '"' then (parseStr cs').map (fun p => (.str p.1, p.2))
      else if c = '\x7b' then
        match skipWs cs' with
        | '\x7d' :: r => some (.obj [], r)
        | _ => parseObjItems fuel cs' []
      else if c = '[' then
        match skipWs cs' with
        | ']' :: r => some (.arr [], r)
        | _ => parseArrItems fuel cs' []
      else if c = 't' then
        match cs' with
        | 'r' :: 'u' :: 'e' :: r => some (.bool true, r)
        | _ => none
      else if c = 'f' then
        match cs' with
        | 'a' :: 'l' :: 's' :: 'e' :: r => some (.bool false, r)
        | _ => none
      else if c = 'n' then
        match cs' with
        | 'u' :: 'l' :: 'l' :: r => some (.null, r)
        | _ => none
      else if c = '-' then
        match cs' with
        | d :: _ =>
          if d.isDigit then
            let p := readDigits cs' 0
            some (.num (-(p.1 : Int)), p.2)
          else none
        | [] => none
      else if c.isDigit then
        let p := readDigits (c :: cs') 0
        some (.num (p.1 : Int), p.2)
      else none

/-- Array items: parse a value, then a `,` to continue or `]` to finish. -/
def parseArrItems : Nat → List Char → List JVal → Option (JVal × List Char)
  | 0, _, _ => none
  | fuel + 1, cs, acc =>
    match parseVal fuel cs with
    | none => none
    | some (v, r) =>
      match skipWs r with
      | ',' :: r' => parseArrItems fuel r' (acc ++ [v])
      | ']' :: r' => some (.arr (acc ++ [v]), r')
      | _ => none

/-- Object members: parse a quoted key, `:`, a value, then `,` or `}`. -/
def parseObjItems : Nat → List Char → List (List Char × JVal) →
    Option (JVal × List Char)
  | 0, _, _ => none
  | fuel + 1, cs, acc =>
    match skipWs cs with
    | '"' :: cs' =>
      match parseStr cs' with
      | none => none
      | some (k, r) =>
        match skipWs r with
        | ':' :: r' =>
          match parseVal fuel r' with
          | none => none
          | some (v, r'') =>
            match skipWs r'' with
            | ',' :: r3 => parseObjItems fuel r3 (acc ++ [(k, v)])
            | '\x7d' :: r3 => some (.obj (acc ++ [(k, v)]), r3)
            | _ => none
        | _ => none
    | _ => none

end

/-- `json.loads`: parse a complete document; trailing whitespace only. -/
def jloads (cs : List Char) : Option JVal :=
  match parseVal (cs.length + 1) cs with
  | some (v, rest) => if skipWs rest = [] then some v else none
  | none => none

mutual

/-- Structural size of a JSON value, used to bound parser fuel. -/
def jsize : JVal → Nat
  | .null => 1
  | .bool _ => 1
  | .num _ => 1
  | .str _ => 1
  | .arr xs => 1 + jsizeArr xs
  | .obj ms => 1 + jsizeObj ms

/-- Structural size of array items. -/
def jsizeArr : List JVal → Nat
  | [] => 0
  | x :: xs => 1 + jsize x + jsizeArr xs

/-- Structural size of object members. -/
def jsizeObj : List (List Char × JVal) → Nat
  | [] => 0
  | (_, v) :: ms => 1 + jsize v + jsizeObj ms

end

/-- `noDigitHead`: the input does not begin with a decimal digit. -/
def noDigitHead : List Char → Prop
  | [] => True
  | c :: _ => c.isDigit = false

/-! ## The configuration document's field view

`load_config` returns the parsed JSON document; the deployment and
configuration functions access a fixed set of fields of it. The field view
is embedded as a structure (missing-field `KeyError` crashes are outside
the modelled state space: every claim below is about runs on a document
that carries the fields the exercised operation reads). -/

structure EnvironmentSection where
  name : String
deriving DecidableEq, Repr

structure VcsaSection where
  targetEsxiHost : String
  hostname : String
  ip : String
  deploymentSize : String
  ssoDomain : String
deriving DecidableEq, Repr

structure VcenterSection where
  server : String
  vcsa : VcsaSection
deriving DecidableEq, Repr

structure DatacenterSection where
  name : String
deriving DecidableEq, Repr

structure HaSection where
  enabled : Bool
deriving DecidableEq, Repr

structure DrsSection where
  enabled : Bool
  automationLevel : String
deriving DecidableEq, Repr

structure ClusterSection where
  name : String
  ha : HaSection
  drs : DrsSection
deriving DecidableEq, Repr

structure EsxiHost where
  hostname : String
  vmotionIp : String
deriving DecidableEq, Repr

structure VdsSection where
  name : String
  version : String
  mtu : Int
  uplinks : Int
  loadBalancing : String
deriving DecidableEq, Repr

structure PortGroup where
  name : String
  vlanId : Int
  type : String
deriving DecidableEq, Repr

structure VmotionStackSection where
  enabled : Bool
  gateway : String
  subnetMask : String
deriving DecidableEq, Repr

structure NetworkingSection where
  vds : VdsSection
  portGroups : List PortGroup
  vmotionTcpIpStack : VmotionStackSection
deriving DecidableEq, Repr

structure VsanSection where
  enabled : Bool
  claimMode : String
  deduplicationEnabled : Bool
  compressionEnabled : Bool
deriving DecidableEq, Repr

structure StorageSection where
  vsan : VsanSection
deriving DecidableEq, Repr

structure NtpSection where
  servers : List String
  policy : String
deriving DecidableEq, Repr

structure DnsSection where
  servers : List String
  searchDomains : List String
deriving DecidableEq, Repr

structure SyslogSection where
  server : String
  port : Int
  protocol : String
deriving DecidableEq, Repr

structure ServicesSection where
  ntp : NtpSection
  dns : DnsSection
  syslog : SyslogSection
deriving DecidableEq, Repr

structure SecuritySection where
  lockdownMode : String
  sshEnabled : Bool
  shellTimeout : Int
  firewallRulesetsEnabled : List String
deriving DecidableEq, Repr

/-- The field view of the configuration document. -/
structure Config where
  environment : EnvironmentSection
  vcenter : VcenterSection
  datacenter : DatacenterSection
  cluster : ClusterSection
  esxiHosts : List EsxiHost
  networking : NetworkingSection
  storage : StorageSection
  services : ServicesSection
  security : SecuritySection
deriving DecidableEq, Repr

/-- Python `str()` of a boolean, as printed by the f-strings. -/
def pyBool (b : Bool) : String := if b then "True" else "False"

/-! ## Effect traces and the execution environment -/

/-- The fixed configuration-file path (relative to the script directory). -/
def CONFIG_FILE : String := "config.json"

/-- A backend invocation: either a script file with named parameters
(`run_powershell`) or an inline command text (`run_powershell_command`). -/
inductive Invocation where
  | scriptFile (script : String) (params : List (String × String))
  | command (text : String)
deriving DecidableEq, Repr

/-- One observable event of a run. Output produced through the program's
reporting helpers is tagged with the helper used (`print_info`,
`print_warning`, `print_error`, `print_success`); bare `print` calls are
`.print`; `print_header` is `.header`; `clear_screen` is `.clear`;
"Press Enter to continue" is `.pause`; a backend execution is `.invoke`. -/
inductive Event where
  | clear
  | header (title : String)
  | print (line : String)
  | info (msg : String)
  | warn (msg : String)
  | error (msg : String)
  | success (msg : String)
  | invoke (inv : Invocation)
  | pause
deriving DecidableEq, Repr

/-- The backend invocations contained in a trace. -/
def invocationsOf (tr : List Event) : List Invocation :=
  tr.filterMap (fun e => match e with | .invoke i => some i | _ => none)

/-- How a modelled function ends: `ret` is a normal Python `return`
(control goes back to the calling menu loop, carrying the input lines not
yet consumed), `exited` is `sys.exit`, `eof` marks exhaustion of the
modelled input lines, and `fuelOut` marks exhaustion of loop fuel (both
of the latter are outside the claims' scope). -/
inductive Outcome where
  | ret (rest : List String)
  | exited (code : Int)
  | eof
  | fuelOut
deriving DecidableEq, Repr

/-- The process environment of a run: whether `config.json` exists, its
parsed field view (`none` models a JSON decode error), the parsed JSON
document itself (for `view_configuration`), which deployment scripts
exist on disk, and the exit status the external PowerShell process
returns for each invocation. -/
structure Env where
  configExists : Bool
  config : Option Config
  configDoc : JVal
  scriptExists : String → Bool
  exitOf : Invocation → Int

/-- `load_config()`: reports and exits on a missing or malformed file
(the caller turns the `none` into `sys.exit(1)`). -/
def load_config (env : Env) : List Event × Option Config :=
  if env.configExists then
    match env.config with
    | some c => ([], some c)
    | none => ([.error "Invalid JSON in configuration file"], none)
  else ([.error ("Configuration file not found: " ++ CONFIG_FILE)], none)

/-- Read one operator input line; an exhausted stream is `Outcome.eof`. -/
def readLn (acc : List Event) (ins : List String)
    (k : String → List String → List Event × Outcome) : List Event × Outcome :=
  match ins with
  | [] => (acc, .eof)
  | l :: rest => k l rest

/-- `input("\nPress Enter to continue...")` then return to the menu. -/
def pauseThen (acc : List Event) (ins : List String) : List Event × Outcome :=
  match ins with
  | [] => (acc, .eof)
  | _ :: rest => (acc ++ [.pause], .ret rest)

/-- `run_powershell(script, params)`: the `print_info` line, the
invocation itself, and its exit status. -/
def run_powershell (env : Env) (script : String) (params : List (String × String)) :
    List Event × Int :=
  let inv := Invocation.scriptFile script params
  ([.info ("Executing: " ++ script), .invoke inv], env.exitOf inv)

/-- `run_powershell_command(command)`: the `print_info` line, the
invocation, and its exit status. -/
def run_powershell_command (env : Env) (command : String) : List Event × Int :=
  let inv := Invocation.command command
  ([.info "Executing PowerShell command...", .invoke inv], env.exitOf inv)

/-! ## The generated inline PowerShell script bodies

The Python source builds these as triple-quoted f-strings: a leading
newline, every line indented by four spaces (blank lines carry the four
spaces), and a trailing newline plus four spaces before the closing
quotes. `psBlock` reproduces exactly that framing. -/

/-- Frame a list of script lines the way the source's triple-quoted
f-strings do. -/
def psBlock (ls : List String) : String :=
  "\n" ++ String.intercalate "\n" ls ++ "\n    "

/-- The inline script of `deploy_datacenter` (constant: it interpolates
only the fixed module and configuration paths). -/
def datacenterCommand : String := psBlock
  [ "    . 'modules/01-Connect.ps1'",
    "    . 'modules/02-Datacenter.ps1'",
    "    ",
    "    $config = Get-Content 'config.json' -Raw | ConvertFrom-Json",
    "    $cred = Get-Credential -Message \"Enter vCenter Administrator Credentials\"",
    "    ",
    "    Connect-VCenterServer -Server $config.vcenter.server -Credential $cred",
    "    New-VsphereDatacenter -Config $config",
    "    ",
    "    Disconnect-VIServer -Server * -Force -Confirm:$false" ]

/-- The inline script of `deploy_cluster`. -/
def clusterCommand : String := psBlock
  [ "    . 'modules/01-Connect.ps1'",
    "    . 'modules/02-Datacenter.ps1'",
    "    ",
    "    $config = Get-Content 'config.json' -Raw | ConvertFrom-Json",
    "    $cred = Get-Credential -Message \"Enter vCenter Administrator Credentials\"",
    "    ",
    "    Connect-VCenterServer -Server $config.vcenter.server -Credential $cred",
    "    New-VsphereCluster -Config $config",
    "    ",
    "    Disconnect-VIServer -Server * -Force -Confirm:$false" ]

/-- The inline script of `configure_vsan`. -/
def vsanCommand : String := psBlock
  [ "    . 'modules/01-Connect.ps1'",
    "    . 'modules/05-Storage.ps1'",
    "    ",
    "    $config = Get-Content 'config.json' -Raw | ConvertFrom-Json",
    "    $cred = Get-Credential -Message \"Enter vCenter Administrator Credentials\"",
    "    ",
    "    Connect-VCenterServer -Server $config.vcenter.server -Credential $cred",
    "    Enable-VsanCluster -Config $config",
    "    Configure-VsanDiskGroups -Config $config -AutoClaim",
    "    ",
    "    Disconnect-VIServer -Server * -Force -Confirm:$false" ]

/-- The inline script of `configure_vds`. -/
def vdsCommand : String := psBlock
  [ "    . 'modules/01-Connect.ps1'",
    "    . 'modules/04-Networking.ps1'",
    "    ",
    "    $config = Get-Content 'config.json' -Raw | ConvertFrom-Json",
    "    $cred = Get-Credential -Message \"Enter vCenter Administrator Credentials\"",
    "    ",
    "    Connect-VCenterServer -Server $config.vcenter.server -Credential $cred",
    "    New-VsphereVDS -Config $config",
    "    New-VspherePortGroups -Config $config",
    "    Add-HostsToVDS -Config $config",
    "    ",
    "    Disconnect-VIServer -Server * -Force -Confirm:$false" ]

/-- The inline script of `configure_vmotion`. -/
def vmotionCommand : String := psBlock
  [ "    . 'modules/01-Connect.ps1'",
    "    . 'modules/04-Networking.ps1'",
    "    ",
    "    $config = Get-Content 'config.json' -Raw | ConvertFrom-Json",
    "    $cred = Get-Credential -Message \"Enter vCenter Administrator Credentials\"",
    "    ",
    "    Connect-VCenterServer -Server $config.vcenter.server -Credential $cred",
    "    Configure-VMotionStack -Config $config",
    "    ",
    "    Disconnect-VIServer -Server * -Force -Confirm:$false" ]

/-- The inline script of `configure_services`. -/
def servicesCommand : String := psBlock
  [ "    . 'modules/01-Connect.ps1'",
    "    . 'modules/06-Configuration.ps1'",
    "    ",
    "    $config = Get-Content 'config.json' -Raw | ConvertFrom-Json",
    "    $cred = Get-Credential -Message \"Enter vCenter Administrator Credentials\"",
    "    ",
    "    Connect-VCenterServer -Server $config.vcenter.server -Credential $cred",
    "    Set-HostNtpConfiguration -Config $config",
    "    Set-HostDnsConfiguration -Config $config",
    "    Set-HostSyslogConfiguration -Config $config",
    "    ",
    "    Disconnect-VIServer -Server * -Force -Confirm:$false" ]

/-- The inline script of `configure_security`. -/
def securityCommand : String := psBlock
  [ "    . 'modules/01-Connect.ps1'",
    "    . 'modules/06-Configuration.ps1'",
    "    ",
    "    $config = Get-Content 'config.json' -Raw | ConvertFrom-Json",
    "    $cred = Get-Credential -Message \"Enter vCenter Administrator Credentials\"",
    "    ",
    "    Connect-VCenterServer -Server $config.vcenter.server -Credential $cred",
    "    Set-HostSecurityConfiguration -Config $config",
    "    ",
    "    Disconnect-VIServer -Server * -Force -Confirm:$false" ]

/-- The inline script of `deploy_vm_from_template` (lines 790-848). The
operator-supplied IP address, subnet mask and gateway are *not* among its
parameters: the generated script does not mention them. -/
def templateVmCommand (server templateName clusterName vmName : String)
    (specs : SizeSpec) (tagName : String) : String := psBlock
  [ "    $cred = Get-Credential -Message \"Enter vCenter Administrator Credentials\"",
    "    ",
    "    Connect-VIServer -Server '" ++ server ++ "' -Credential $cred",
    "    ",
    "    # Get the template",
    "    $template = Get-Template -Name '" ++ templateName ++ "' -ErrorAction Stop",
    "    ",
    "    # Get the cluster",
    "    $cluster = Get-Cluster -Name '" ++ clusterName ++ "' -ErrorAction Stop",
    "    ",
    "    # Get datastore (vSAN or first available)",
    "    $datastore = Get-Datastore -Location $cluster | Where-Object \x7b $_.Type -eq 'vsan' \x7d | Select-Object -First 1",
    "    if (-not $datastore) \x7b",
    "        $datastore = Get-Datastore -Location $cluster | Select-Object -First 1",
    "    \x7d",
    "    ",
    "    # Get port group for VM network",
    "    $portGroup = Get-VDPortgroup -Name 'PG-VMTraffic' -ErrorAction SilentlyContinue",
    "    if (-not $portGroup) \x7b",
    "        $portGroup = Get-VirtualPortGroup | Select-Object -First 1",
    "    \x7d",
    "    ",
    "    # Create VM from template",
    "    Write-Host \"Creating VM from template...\"",
    "    $vm = New-VM -Name '" ++ vmName ++ "' `",
    "        -Template $template `",
    "        -ResourcePool $cluster `",
    "        -Datastore $datastore `",
    "        -ErrorAction Stop",
    "    ",
    "    # Configure VM resources",
    "    Write-Host \"Configuring VM resources...\"",
    "    Set-VM -VM $vm `",
    "        -NumCpu " ++ toString specs.cpu ++ " `",
    "        -MemoryGB " ++ toString specs.memory_gb ++ " `",
    "        -Confirm:$false",
    "    ",
    "    # Configure network adapter",
    "    $adapter = Get-NetworkAdapter -VM $vm",
    "    Set-NetworkAdapter -NetworkAdapter $adapter -Portgroup $portGroup -Confirm:$false",
    "    ",
    "    # Tag the VM",
    "    $tag = Get-Tag -Name '" ++ tagName ++ "' -ErrorAction SilentlyContinue",
    "    if ($tag) \x7b",
    "        New-TagAssignment -Tag $tag -Entity $vm",
    "    \x7d",
    "    ",
    "    Write-Host \"VM '" ++ vmName ++ "' created successfully!\" -ForegroundColor Green",
    "    ",
    "    # Optionally power on",
    "    $powerOn = Read-Host \"Power on the VM? (y/n)\"",
    "    if ($powerOn -eq 'y') \x7b",
    "        Start-VM -VM $vm -Confirm:$false",
    "        Write-Host \"VM powered on.\" -ForegroundColor Green",
    "    \x7d",
    "    ",
    "    Disconnect-VIServer -Server * -Force -Confirm:$false" ]

/-- The inline script of `deploy_standard_vm` (lines 918-974). The
operator-supplied IP address is *not* among its parameters: the generated
script does not mention it. -/
def standardVmCommand (server clusterName vmName : String) (specs : SizeSpec)
    (guestId tagName : String) : String := psBlock
  [ "    $cred = Get-Credential -Message \"Enter vCenter Administrator Credentials\"",
    "    ",
    "    Connect-VIServer -Server '" ++ server ++ "' -Credential $cred",
    "    ",
    "    # Get the cluster",
    "    $cluster = Get-Cluster -Name '" ++ clusterName ++ "' -ErrorAction Stop",
    "    ",
    "    # Get datastore",
    "    $datastore = Get-Datastore -Location $cluster | Where-Object \x7b $_.Type -eq 'vsan' \x7d | Select-Object -First 1",
    "    if (-not $datastore) \x7b",
    "        $datastore = Get-Datastore -Location $cluster | Sort-Object FreeSpaceGB -Descending | Select-Object -First 1",
    "    \x7d",
    "    ",
    "    # Get port group for VM network",
    "    $portGroup = Get-VDPortgroup -Name 'PG-VMTraffic' -ErrorAction SilentlyContinue",
    "    if (-not $portGroup) \x7b",
    "        $portGroup = Get-VirtualPortGroup | Where-Object \x7b $_.Name -like '*VM*' \x7d | Select-Object -First 1",
    "    \x7d",
    "    ",
    "    # Create new VM",
    "    Write-Host \"Creating VM '" ++ vmName ++ "'...\"",
    "    $vm = New-VM -Name '" ++ vmName ++ "' `",
    "        -ResourcePool $cluster `",
    "        -Datastore $datastore `",
    "        -NumCpu " ++ toString specs.cpu ++ " `",
    "        -MemoryGB " ++ toString specs.memory_gb ++ " `",
    "        -DiskGB " ++ toString specs.disk_gb ++ " `",
    "        -DiskStorageFormat Thin `",
    "        -GuestId '" ++ guestId ++ "' `",
    "        -NetworkName $portGroup.Name `",
    "        -ErrorAction Stop",
    "    ",
    "    Write-Host \"VM created successfully!\" -ForegroundColor Green",
    "    ",
    "    # Tag the VM",
    "    $tag = Get-Tag -Name '" ++ tagName ++ "' -ErrorAction SilentlyContinue",
    "    if ($tag) \x7b",
    "        New-TagAssignment -Tag $tag -Entity $vm",
    "        Write-Host \"Tag assigned: " ++ tagName ++ "\" -ForegroundColor Green",
    "    \x7d else \x7b",
    "        Write-Host \"Note: Tag '" ++ tagName ++ "' not found, skipping tag assignment\" -ForegroundColor Yellow",
    "    \x7d",
    "    ",
    "    Write-Host \"\"",
    "    Write-Host \"VM Summary:\" -ForegroundColor Cyan",
    "    $vm | Select-Object Name, NumCpu, MemoryGB, @\x7bN='DiskGB';E=\x7b($_ | Get-HardDisk | Measure-Object -Property CapacityGB -Sum).Sum\x7d\x7d, PowerState | Format-Table",
    "    ",
    "    # Optionally power on",
    "    $powerOn = Read-Host \"Power on the VM? (y/n)\"",
    "    if ($powerOn -eq 'y') \x7b",
    "        Start-VM -VM $vm -Confirm:$false",
    "        Write-Host \"VM powered on.\" -ForegroundColor Green",
    "    \x7d",
    "    ",
    "    Disconnect-VIServer -Server * -Force -Confirm:$false" ]

/-- The inline script of `show_status` (constant: it interpolates only the
fixed configuration path). -/
def statusCommand : String := psBlock
  [ "    $config = Get-Content 'config.json' -Raw | ConvertFrom-Json",
    "    $cred = Get-Credential -Message \"Enter vCenter Administrator Credentials\"",
    "    ",
    "    try \x7b",
    "        Connect-VIServer -Server $config.vcenter.server -Credential $cred -ErrorAction Stop",
    "        ",
    "        Write-Host \"\"",
    "        Write-Host \"=== vCenter Connection ===\" -ForegroundColor Cyan",
    "        Write-Host \"Server:  $($global:DefaultVIServer.Name)\"",
    "        Write-Host \"Version: $($global:DefaultVIServer.Version)\"",
    "        ",
    "        Write-Host \"\"",
    "        Write-Host \"=== Datacenter ===\" -ForegroundColor Cyan",
    "        Get-Datacenter | Format-Table Name, @\x7bN='Clusters';E=\x7b($_ | Get-Cluster).Count\x7d\x7d, @\x7bN='Hosts';E=\x7b($_ | Get-VMHost).Count\x7d\x7d, @\x7bN='VMs';E=\x7b($_ | Get-VM).Count\x7d\x7d",
    "        ",
    "        Write-Host \"=== Clusters ===\" -ForegroundColor Cyan",
    "        Get-Cluster | Format-Table Name, HAEnabled, DrsEnabled, @\x7bN='Hosts';E=\x7b($_ | Get-VMHost).Count\x7d\x7d, @\x7bN='VMs';E=\x7b($_ | Get-VM).Count\x7d\x7d",
    "        ",
    "        Write-Host \"=== ESXi Hosts ===\" -ForegroundColor Cyan",
    "        Get-VMHost | Format-Table Name, ConnectionState, PowerState, Version, @\x7bN='CPU(GHz)';E=\x7b[math]::Round($_.CpuTotalMhz/1000,1)\x7d\x7d, @\x7bN='Mem(GB)';E=\x7b[math]::Round($_.MemoryTotalGB,0)\x7d\x7d",
    "        ",
    "        Write-Host \"=== Datastores ===\" -ForegroundColor Cyan",
    "        Get-Datastore | Format-Table Name, Type, @\x7bN='Capacity(GB)';E=\x7b[math]::Round($_.CapacityGB,0)\x7d\x7d, @\x7bN='Free(GB)';E=\x7b[math]::Round($_.FreeSpaceGB,0)\x7d\x7d, @\x7bN='Used%';E=\x7b[math]::Round((1-($_.FreeSpaceGB/$_.CapacityGB))*100,0)\x7d\x7d",
    "        ",
    "        Write-Host \"=== VDS ===\" -ForegroundColor Cyan",
    "        Get-VDSwitch | Format-Table Name, Version, Mtu, @\x7bN='Hosts';E=\x7b($_ | Get-VMHost).Count\x7d\x7d, @\x7bN='PortGroups';E=\x7b($_ | Get-VDPortgroup).Count\x7d\x7d",
    "        ",
    "        Disconnect-VIServer -Server * -Force -Confirm:$false",
    "    \x7d",
    "    catch \x7b",
    "        Write-Host \"Error: $($_.Exception.Message)\" -ForegroundColor Red",
    "    \x7d" ]

/-! ## Deployment and configuration operations

Each function below is the embedding of the identically-named Python
function. ANSI colour sequences are dropped from the printed text (they
are produced by the `Colors` presentation class); everything else on the
line is kept verbatim. -/

/-- Python `f"{s:<w}"` left-justified padding. -/
def padRight (s : String) (w : Nat) : String :=
  s ++ String.mk (List.replicate (w - s.length) ' ')

/-- The size listing printed by both VM deployment flows. -/
def sizeListing : List Event :=
  VM_SIZES.map (fun p =>
    .print ("  • " ++ p.1 ++ ": " ++ toString p.2.cpu ++ " vCPU, " ++
            toString p.2.memory_gb ++ " GB RAM, " ++ toString p.2.disk_gb ++ " GB Disk"))

/-- The template listing printed by `display_template_menu`. -/
def templateListing : List Event :=
  VM_TEMPLATES.map (fun p =>
    .print ("  " ++ p.1 ++ ". " ++ padRight p.2.name 20 ++ " - " ++ p.2.description))

/-- The OS-type listing printed by `deploy_standard_vm`. -/
def osListing : List Event :=
  OS_TYPES.map (fun p =>
    .print ("  " ++ p.1 ++ ". " ++ padRight p.2.name 10 ++ " - " ++ p.2.description))

/-- `deploy_vcenter()`. -/
def deploy_vcenter (env : Env) (ins : List String) : List Event × Outcome :=
  let hdr := [Event.header "Deploy vCenter Server Appliance (VCSA)"]
  match load_config env with
  | (le, none) => (hdr ++ le, .exited 1)
  | (le, some cfg) =>
    let acc := hdr ++ le ++
      [ .print "VCSA Deployment Configuration:",
        .print ("  Target ESXi Host: " ++ cfg.vcenter.vcsa.targetEsxiHost),
        .print ("  VCSA Hostname:    " ++ cfg.vcenter.vcsa.hostname),
        .print ("  VCSA IP:          " ++ cfg.vcenter.vcsa.ip),
        .print ("  Deployment Size:  " ++ cfg.vcenter.vcsa.deploymentSize),
        .print ("  SSO Domain:       " ++ cfg.vcenter.vcsa.ssoDomain),
        .print "" ]
    readLn acc ins fun resp ins1 =>
      if confirm_action resp then
        if env.scriptExists "Deploy-VCSA.ps1" then
          let (re, code) := run_powershell env "Deploy-VCSA.ps1" [("ConfigPath", CONFIG_FILE)]
          let rep := if code = 0 then Event.success "VCSA deployment preparation completed!"
            else Event.error ("VCSA deployment failed with exit code: " ++ toString code)
          pauseThen (acc ++ re ++ [rep]) ins1
        else (acc ++ [.error "Script not found: Deploy-VCSA.ps1"], .ret ins1)
      else (acc ++ [.warn "VCSA deployment cancelled."], .ret ins1)

/-- `deploy_infrastructure()`. -/
def deploy_infrastructure (env : Env) (ins : List String) : List Event × Outcome :=
  let hdr := [Event.header "Deploy Full Infrastructure"]
  match load_config env with
  | (le, none) => (hdr ++ le, .exited 1)
  | (le, some cfg) =>
    let acc := hdr ++ le ++
      [ .print "This will deploy the following components:",
        .print ("  • Datacenter: " ++ cfg.datacenter.name),
        .print ("  • Cluster:    " ++ cfg.cluster.name),
        .print ("  • Hosts:      " ++ toString cfg.esxiHosts.length ++ " ESXi hosts"),
        .print ("  • VDS:        " ++ cfg.networking.vds.name),
        .print ("  • vSAN:       " ++ (if cfg.storage.vsan.enabled then "Enabled" else "Disabled")),
        .print "" ]
    readLn acc ins fun resp ins1 =>
      if confirm_action resp then
        if env.scriptExists "Deploy-Infrastructure.ps1" then
          let (re, code) := run_powershell env "Deploy-Infrastructure.ps1" [("ConfigPath", CONFIG_FILE)]
          let rep := if code = 0 then Event.success "Infrastructure deployment completed!"
            else Event.error ("Infrastructure deployment failed with exit code: " ++ toString code)
          pauseThen (acc ++ re ++ [rep]) ins1
        else (acc ++ [.error "Script not found: Deploy-Infrastructure.ps1"], .ret ins1)
      else (acc ++ [.warn "Infrastructure deployment cancelled."], .ret ins1)

/-- `deploy_datacenter()`. -/
def deploy_datacenter (env : Env) (ins : List String) : List Event × Outcome :=
  let hdr := [Event.header "Deploy Datacenter"]
  match load_config env with
  | (le, none) => (hdr ++ le, .exited 1)
  | (le, some cfg) =>
    let acc := hdr ++ le ++
      [ .print ("Datacenter to create: " ++ cfg.datacenter.name), .print "" ]
    readLn acc ins fun resp ins1 =>
      if confirm_action resp then
        let (re, code) := run_powershell_command env datacenterCommand
        let rep := if code = 0 then Event.success "Datacenter created successfully!"
          else Event.error ("Datacenter creation failed with exit code: " ++ toString code)
        pauseThen (acc ++ re ++ [rep]) ins1
      else (acc ++ [.warn "Datacenter creation cancelled."], .ret ins1)

/-- `deploy_cluster()`. -/
def deploy_cluster (env : Env) (ins : List String) : List Event × Outcome :=
  let hdr := [Event.header "Deploy Cluster"]
  match load_config env with
  | (le, none) => (hdr ++ le, .exited 1)
  | (le, some cfg) =>
    let acc := hdr ++ le ++
      [ .print "Cluster Configuration:",
        .print ("  Name:          " ++ cfg.cluster.name),
        .print ("  HA Enabled:    " ++ pyBool cfg.cluster.ha.enabled),
        .print ("  DRS Enabled:   " ++ pyBool cfg.cluster.drs.enabled),
        .print ("  DRS Level:     " ++ cfg.cluster.drs.automationLevel),
        .print "" ]
    readLn acc ins fun resp ins1 =>
      if confirm_action resp then
        let (re, code) := run_powershell_command env clusterCommand
        let rep := if code = 0 then Event.success "Cluster created successfully!"
          else Event.error ("Cluster creation failed with exit code: " ++ toString code)
        pauseThen (acc ++ re ++ [rep]) ins1
      else (acc ++ [.warn "Cluster creation cancelled."], .ret ins1)

/-- `configure_vsan()`. -/
def configure_vsan (env : Env) (ins : List String) : List Event × Outcome :=
  let hdr := [Event.header "Configure vSAN"]
  match load_config env with
  | (le, none) => (hdr ++ le, .exited 1)
  | (le, some cfg) =>
    let acc := hdr ++ le ++
      [ .print "vSAN Configuration:",
        .print ("  Enabled:      " ++ pyBool cfg.storage.vsan.enabled),
        .print ("  Claim Mode:   " ++ cfg.storage.vsan.claimMode),
        .print ("  Dedup:        " ++ pyBool cfg.storage.vsan.deduplicationEnabled),
        .print ("  Compression:  " ++ pyBool cfg.storage.vsan.compressionEnabled),
        .print "" ]
    readLn acc ins fun resp ins1 =>
      if confirm_action resp then
        let (re, code) := run_powershell_command env vsanCommand
        let rep := if code = 0 then Event.success "vSAN configured successfully!"
          else Event.error ("vSAN configuration failed with exit code: " ++ toString code)
        pauseThen (acc ++ re ++ [rep]) ins1
      else (acc ++ [.warn "vSAN configuration cancelled."], .ret ins1)

/-- `configure_vds()`. -/
def configure_vds (env : Env) (ins : List String) : List Event × Outcome :=
  let hdr := [Event.header "Configure Distributed Switch (VDS)"]
  match load_config env with
  | (le, none) => (hdr ++ le, .exited 1)
  | (le, some cfg) =>
    let acc := hdr ++ le ++
      [ .print "VDS Configuration:",
        .print ("  Name:           " ++ cfg.networking.vds.name),
        .print ("  Version:        " ++ cfg.networking.vds.version),
        .print ("  MTU:            " ++ toString cfg.networking.vds.mtu),
        .print ("  Uplinks:        " ++ toString cfg.networking.vds.uplinks),
        .print ("  Load Balancing: " ++ cfg.networking.vds.loadBalancing),
        .print "",
        .print "Port Groups:" ] ++
      cfg.networking.portGroups.map (fun pg =>
        .print ("  • " ++ pg.name ++ " (VLAN " ++ toString pg.vlanId ++ ") - " ++ pg.type)) ++
      [ .print "" ]
    readLn acc ins fun resp ins1 =>
      if confirm_action resp then
        let (re, code) := run_powershell_command env vdsCommand
        let rep := if code = 0 then Event.success "VDS configured successfully!"
          else Event.error ("VDS configuration failed with exit code: " ++ toString code)
        pauseThen (acc ++ re ++ [rep]) ins1
      else (acc ++ [.warn "VDS configuration cancelled."], .ret ins1)

/-- `configure_vmotion()`. -/
def configure_vmotion (env : Env) (ins : List String) : List Event × Outcome :=
  let hdr := [Event.header "Configure vMotion"]
  match load_config env with
  | (le, none) => (hdr ++ le, .exited 1)
  | (le, some cfg) =>
    let acc := hdr ++ le ++
      [ .print "vMotion Configuration:",
        .print ("  Enabled:     " ++ pyBool cfg.networking.vmotionTcpIpStack.enabled),
        .print ("  Gateway:     " ++ cfg.networking.vmotionTcpIpStack.gateway),
        .print ("  Subnet Mask: " ++ cfg.networking.vmotionTcpIpStack.subnetMask),
        .print "",
        .print "Host vMotion IPs:" ] ++
      cfg.esxiHosts.map (fun h =>
        .print ("  • " ++ h.hostname ++ ": " ++ h.vmotionIp)) ++
      [ .print "" ]
    readLn acc ins fun resp ins1 =>
      if confirm_action resp then
        let (re, code) := run_powershell_command env vmotionCommand
        let rep := if code = 0 then Event.success "vMotion configured successfully!"
          else Event.error ("vMotion configuration failed with exit code: " ++ toString code)
        pauseThen (acc ++ re ++ [rep]) ins1
      else (acc ++ [.warn "vMotion configuration cancelled."], .ret ins1)

/-- `configure_services()`. -/
def configure_services (env : Env) (ins : List String) : List Event × Outcome :=
  let hdr := [Event.header "Configure Host Services (NTP/DNS/Syslog)"]
  match load_config env with
  | (le, none) => (hdr ++ le, .exited 1)
  | (le, some cfg) =>
    let acc := hdr ++ le ++
      [ .print "NTP Configuration:",
        .print ("  Servers: " ++ String.intercalate ", " cfg.services.ntp.servers),
        .print ("  Policy:  " ++ cfg.services.ntp.policy),
        .print "",
        .print "DNS Configuration:",
        .print ("  Servers: " ++ String.intercalate ", " cfg.services.dns.servers),
        .print ("  Search:  " ++ String.intercalate ", " cfg.services.dns.searchDomains),
        .print "",
        .print "Syslog Configuration:",
        .print ("  Server:   " ++ cfg.services.syslog.server),
        .print ("  Port:     " ++ toString cfg.services.syslog.port),
        .print ("  Protocol: " ++ cfg.services.syslog.protocol),
        .print "" ]
    readLn acc ins fun resp ins1 =>
      if confirm_action resp then
        let (re, code) := run_powershell_command env servicesCommand
        let rep := if code = 0 then Event.success "Host services configured successfully!"
          else Event.error ("Service configuration failed with exit code: " ++ toString code)
        pauseThen (acc ++ re ++ [rep]) ins1
      else (acc ++ [.warn "Service configuration cancelled."], .ret ins1)

/-- `configure_security()`. -/
def configure_security (env : Env) (ins : List String) : List Event × Outcome :=
  let hdr := [Event.header "Configure Security Settings"]
  match load_config env with
  | (le, none) => (hdr ++ le, .exited 1)
  | (le, some cfg) =>
    let acc := hdr ++ le ++
      [ .print "Security Configuration:",
        .print ("  Lockdown Mode:  " ++ cfg.security.lockdownMode),
        .print ("  SSH Enabled:    " ++ pyBool cfg.security.sshEnabled),
        .print ("  Shell Timeout:  " ++ toString cfg.security.shellTimeout ++ " seconds"),
        .print ("  Firewall Rules: " ++ String.intercalate ", " cfg.security.firewallRulesetsEnabled),
        .print "" ]
    readLn acc ins fun resp ins1 =>
      if confirm_action resp then
        let (re, code) := run_powershell_command env securityCommand
        let rep := if code = 0 then Event.success "Security settings applied successfully!"
          else Event.error ("Security configuration failed with exit code: " ++ toString code)
        pauseThen (acc ++ re ++ [rep]) ins1
      else (acc ++ [.warn "Security configuration cancelled."], .ret ins1)

/-- `configure_all()` (note: no `load_config` call and no script-existence
check in the source). -/
def configure_all (env : Env) (ins : List String) : List Event × Outcome :=
  let acc := [Event.header "Configure All Infrastructure",
    .print "This will configure:",
    .print "  • vSAN Storage",
    .print "  • Distributed Switch (VDS)",
    .print "  • vMotion Networking",
    .print "  • NTP, DNS, Syslog Services",
    .print "  • Security Settings",
    .print "" ]
  readLn acc ins fun resp ins1 =>
    if confirm_action resp then
      let (re, code) := run_powershell env "Deploy-Infrastructure.ps1"
        [("ConfigPath", CONFIG_FILE), ("SkipVCSA", "$true")]
      let rep := if code = 0 then Event.success "Full infrastructure configuration completed!"
        else Event.error ("Configuration failed with exit code: " ++ toString code)
      pauseThen (acc ++ re ++ [rep]) ins1
    else (acc ++ [.warn "Full configuration cancelled."], .ret ins1)

/-- `display_template_menu()`. -/
def display_template_menu : List Event :=
  [Event.clear, Event.header "Deploy VM from Template",
   .print "Available Templates:", .print ""] ++ templateListing ++
  [.print "", .print "  B. Back to VM Menu", .print ""]

/-- `deploy_vm_from_template()`. -/
def deploy_vm_from_template (env : Env) (ins : List String) : List Event × Outcome :=
  let acc := display_template_menu
  readLn acc ins fun rawChoice ins1 =>
    let choice := pyUpper (get_input rawChoice)
    if choice = "B" then (acc, .ret ins1)
    else
      match VM_TEMPLATES.lookup choice with
      | none => pauseThen (acc ++ [.error "Invalid template selection."]) ins1
      | some tmpl =>
        let acc := acc ++
          [ .print "", .print ("Selected Template: " ++ tmpl.name),
            .print ("Template Name:     " ++ tmpl.template), .print "" ]
        readLn acc ins1 fun rawName ins2 =>
          let vm_name := get_input rawName
          if vm_name = "" then (acc ++ [.error "VM name is required."], .ret ins2)
          else
            let acc := acc ++ [.print "\nAvailable Sizes:"] ++ sizeListing
            readLn acc ins2 fun rawSize ins3 =>
              let vm_size := get_input rawSize "Medium"
              match VM_SIZES.lookup vm_size with
              | none => (acc ++ [.error "Invalid size selection."], .ret ins3)
              | some size_specs =>
                readLn acc ins3 fun rawIp ins4 =>
                  let ip_address := get_input rawIp
                  readLn acc ins4 fun rawMask ins5 =>
                    let _netmask := get_input rawMask "255.255.255.0"
                    readLn acc ins5 fun rawGw ins6 =>
                      let _gateway := get_input rawGw "192.168.1.1"
                      readLn acc ins6 fun rawTag ins7 =>
                        let tag_name := get_input rawTag
                        let acc := acc ++
                          [ .print "", .header "VM Deployment Summary",
                            .print ("  VM Name:    " ++ vm_name),
                            .print ("  Template:   " ++ tmpl.name),
                            .print ("  Size:       " ++ vm_size ++ " (" ++
                              toString size_specs.cpu ++ " vCPU, " ++
                              toString size_specs.memory_gb ++ " GB RAM)"),
                            .print ("  IP Address: " ++ ip_address),
                            .print ("  Tag:        " ++ tag_name),
                            .print "" ]
                        readLn acc ins7 fun resp ins8 =>
                          if confirm_action resp then
                            match load_config env with
                            | (le, none) => (acc ++ le, .exited 1)
                            | (le, some cfg) =>
                              let (re, code) := run_powershell_command env
                                (templateVmCommand cfg.vcenter.server tmpl.template
                                  cfg.cluster.name vm_name size_specs tag_name)
                              let rep := if code = 0
                                then Event.success ("VM '" ++ vm_name ++ "' deployed from template!")
                                else Event.error ("VM deployment failed with exit code: " ++ toString code)
                              pauseThen (acc ++ le ++ re ++ [rep]) ins8
                          else (acc ++ [.warn "VM deployment cancelled."], .ret ins8)

/-- `deploy_standard_vm()`. -/
def deploy_standard_vm (env : Env) (ins : List String) : List Event × Outcome :=
  let acc := [Event.header "Deploy Standard Virtual Machine"]
  readLn acc ins fun rawName ins1 =>
    let vm_name := get_input rawName
    if vm_name = "" then (acc ++ [.error "VM name is required."], .ret ins1)
    else
      let acc := acc ++ [.print "\nAvailable OS Types:"] ++ osListing
      readLn acc ins1 fun rawOs ins2 =>
        let os_choice := get_input rawOs "1"
        match OS_TYPES.lookup os_choice with
        | none => (acc ++ [.error "Invalid OS type selection."], .ret ins2)
        | some os_type =>
          let acc := acc ++ [.print "\nAvailable Sizes:"] ++ sizeListing
          readLn acc ins2 fun rawSize ins3 =>
            let vm_size := get_input rawSize "Small"
            match VM_SIZES.lookup vm_size with
            | none => (acc ++ [.error "Invalid size selection."], .ret ins3)
            | some size_specs =>
              readLn acc ins3 fun rawIp ins4 =>
                let ip_address := get_input rawIp
                readLn acc ins4 fun rawTag ins5 =>
                  let tag_name := get_input rawTag
                  let acc := acc ++
                    [ .print "", .header "VM Deployment Summary",
                      .print ("  VM Name:    " ++ vm_name),
                      .print ("  OS Type:    " ++ os_type.name ++ " (" ++ os_type.description ++ ")"),
                      .print ("  Size:       " ++ vm_size),
                      .print ("  vCPU:       " ++ toString size_specs.cpu),
                      .print ("  Memory:     " ++ toString size_specs.memory_gb ++ " GB"),
                      .print ("  Disk:       " ++ toString size_specs.disk_gb ++ " GB"),
                      .print ("  IP Address: " ++ ip_address),
                      .print ("  Tag:        " ++ tag_name),
                      .print "" ]
                  readLn acc ins5 fun resp ins6 =>
                    if confirm_action resp then
                      match load_config env with
                      | (le, none) => (acc ++ le, .exited 1)
                      | (le, some cfg) =>
                        let (re, code) := run_powershell_command env
                          (standardVmCommand cfg.vcenter.server cfg.cluster.name
                            vm_name size_specs os_type.guest_id tag_name)
                        let rep := if code = 0
                          then Event.success ("Standard VM '" ++ vm_name ++ "' created successfully!")
                          else Event.error ("VM creation failed with exit code: " ++ toString code)
                        pauseThen (acc ++ le ++ re ++ [rep]) ins6
                    else (acc ++ [.warn "VM creation cancelled."], .ret ins6)

/-- `show_status()` (read-only: invoked without a confirmation gate, and
the exit status is not inspected). -/
def show_status (env : Env) (ins : List String) : List Event × Outcome :=
  let hdr := [Event.header "Infrastructure Status"]
  match load_config env with
  | (le, none) => (hdr ++ le, .exited 1)
  | (le, some _) =>
    let (re, _) := run_powershell_command env statusCommand
    pauseThen (hdr ++ le ++ re) ins

/-- `view_configuration()`: prints `json.dumps(config, indent=2)`. -/
def view_configuration (env : Env) (ins : List String) : List Event × Outcome :=
  let hdr := [Event.header "Current Configuration"]
  match load_config env with
  | (le, none) => (hdr ++ le, .exited 1)
  | (le, some _) =>
    pauseThen (hdr ++ le ++ [.print (String.mk (jdumps env.configDoc))]) ins

/-- `reload_configuration()`. -/
def reload_configuration (env : Env) (ins : List String) : List Event × Outcome :=
  let hdr := [Event.info "Reloading configuration..."]
  match load_config env with
  | (le, none) => (hdr ++ le, .exited 1)
  | (le, some cfg) =>
    pauseThen (hdr ++ le ++
      [ .success "Configuration reloaded successfully!",
        .print ("  Environment: " ++ cfg.environment.name),
        .print ("  vCenter:     " ++ cfg.vcenter.server) ]) ins

/-! ## The menu state machine

`main`, `handle_configure_menu`, `handle_vm_menu` and
`handle_config_management_menu` are each a `while True` loop that reads one
upper-cased token and dispatches on it. The dispatch tables are collected
into `menuAction`; the loops below consume fuel (one unit per iteration;
`main` supplies more fuel than any input stream can use, so `fuelOut` is
unreachable on real runs). -/

/-- The four menu loops of the program. -/
inductive MenuState where
  | Main
  | Configure
  | VMDeploy
  | ConfigManagement
deriving DecidableEq, Repr

/-- Identifier of a terminal menu action. -/
inductive OpId where
  | deployVcenter
  | deployInfrastructure
  | deployDatacenter
  | deployCluster
  | configureVsan
  | configureVds
  | configureVmotion
  | configureServices
  | configureSecurity
  | configureAll
  | deployVmFromTemplate
  | deployStandardVm
  | showStatus
  | viewConfiguration
  | reloadConfiguration
  | editStub
deriving DecidableEq, Repr

/-- What one menu token maps to. -/
inductive MenuCmd where
  | op (o : OpId)
  | enter (s : MenuState)
  | back
  | quit
  | invalid
deriving DecidableEq, Repr

/-- The dispatch tables of the four menu loops, on the already
stripped-and-upper-cased token. -/
def menuAction : MenuState → String → MenuCmd
  | .Main, t =>
    if t = "1" then .op .deployVcenter
    else if t = "2" then .op .deployInfrastructure
    else if t = "3" then .op .deployDatacenter
    else if t = "4" then .op .deployCluster
    else if t = "5" then .enter .Configure
    else if t = "6" then .enter .VMDeploy
    else if t = "C" then .enter .ConfigManagement
    else if t = "S" then .op .showStatus
    else if t = "Q" then .quit
    else .invalid
  | .Configure, t =>
    if t = "1" then .op .configureVsan
    else if t = "2" then .op .configureVds
    else if t = "3" then .op .configureVmotion
    else if t = "4" then .op .configureServices
    else if t = "5" then .op .configureSecurity
    else if t = "6" then .op .configureAll
    else if t = "B" then .back
    else .invalid
  | .VMDeploy, t =>
    if t = "1" then .op .deployVmFromTemplate
    else if t = "2" then .op .deployStandardVm
    else if t = "B" then .back
    else .invalid
  | .ConfigManagement, t =>
    if t = "1" then .op .viewConfiguration
    else if t = "7" then .op .reloadConfiguration
    else if t = "B" then .back
    else if t = "2" ∨ t = "3" ∨ t = "4" ∨ t = "5" ∨ t = "6" then .op .editStub
    else .invalid

/-- Dispatch a terminal action to its operation (`editStub` is the
"Configuration editing is not yet implemented" branch). -/
def runOp (o : OpId) (env : Env) (ins : List String) : List Event × Outcome :=
  match o with
  | .deployVcenter => deploy_vcenter env ins
  | .deployInfrastructure => deploy_infrastructure env ins
  | .deployDatacenter => deploy_datacenter env ins
  | .deployCluster => deploy_cluster env ins
  | .configureVsan => configure_vsan env ins
  | .configureVds => configure_vds env ins
  | .configureVmotion => configure_vmotion env ins
  | .configureServices => configure_services env ins
  | .configureSecurity => configure_security env ins
  | .configureAll => configure_all env ins
  | .deployVmFromTemplate => deploy_vm_from_template env ins
  | .deployStandardVm => deploy_standard_vm env ins
  | .showStatus => show_status env ins
  | .viewConfiguration => view_configuration env ins
  | .reloadConfiguration => reload_configuration env ins
  | .editStub =>
    pauseThen [ .warn "Configuration editing is not yet implemented.",
                .info "Please edit config.json directly for now." ] ins

/-- `display_main_menu()`: clears, shows the header, loads the
configuration (a load failure exits before the menu body is shown), then
shows the environment summary and the menu body. -/
def display_main_menu (env : Env) : List Event × Option Config :=
  let hdr := [Event.clear, Event.header "ECST VMware Automation Tool"]
  match load_config env with
  | (le, none) => (hdr ++ le, none)
  | (le, some cfg) =>
    (hdr ++ le ++
      [ .print ("  Environment: " ++ cfg.environment.name),
        .print ("  vCenter:     " ++ cfg.vcenter.server),
        .print ("  Datacenter:  " ++ cfg.datacenter.name),
        .print ("  Cluster:     " ++ cfg.cluster.name),
        .print "",
        .print "Main Menu:",
        .print "",
        .print "  1. Deploy vCenter (VCSA)",
        .print "  2. Deploy Infrastructure (Full)",
        .print "  3. Deploy Datacenter",
        .print "  4. Deploy Cluster",
        .print "  5. Configure Infrastructure",
        .print "  6. Deploy Virtual Machine",
        .print "",
        .print "  C. Configuration Management",
        .print "  S. Show Current Status",
        .print "  Q. Quit",
        .print "" ], some cfg)

/-- `display_configure_menu()`. -/
def display_configure_menu : List Event :=
  [ Event.clear, Event.header "Configure Infrastructure",
    .print "Configuration Options:",
    .print "",
    .print "  1. Configure vSAN",
    .print "  2. Configure vDS (Distributed Switch)",
    .print "  3. Configure vMotion",
    .print "  4. Configure NTP/DNS/Syslog",
    .print "  5. Configure Security Settings",
    .print "  6. Configure All (Full)",
    .print "",
    .print "  B. Back to Main Menu",
    .print "" ]

/-- `display_vm_menu()`. -/
def display_vm_menu : List Event :=
  [ Event.clear, Event.header "Deploy Virtual Machine",
    .print "VM Deployment Options:",
    .print "",
    .print "  1. Deploy VM from Template",
    .print "  2. Deploy Standard Virtual Machine",
    .print "",
    .print "  B. Back to Main Menu",
    .print "" ]

/-- `display_config_management_menu()`. -/
def display_config_management_menu : List Event :=
  [ Event.clear, Event.header "Configuration Management",
    .print "Configuration Options:",
    .print "",
    .print "  1. View Current Configuration",
    .print "  2. Edit vCenter Settings",
    .print "  3. Edit Datacenter/Cluster Settings",
    .print "  4. Edit ESXi Host List",
    .print "  5. Edit Network Settings",
    .print "  6. Edit Storage (vSAN) Settings",
    .print "  7. Reload Configuration",
    .print "",
    .print "  B. Back to Main Menu",
    .print "" ]

/-- The "Invalid option. Please try again." branch shared by every menu
loop: the error, the acknowledgement pause, then the same loop again. -/
def invalidBranch (disp : List Event) (ins : List String)
    (again : List String → List Event × Outcome) : List Event × Outcome :=
  match ins with
  | [] => (disp ++ [.error "Invalid option. Please try again."], .eof)
  | _ :: rest =>
    let r := again rest
    (disp ++ [.error "Invalid option. Please try again.", .pause] ++ r.1, r.2)

/-- Run one submenu operation, then continue the loop on a normal return. -/
def opThen (disp : List Event) (o : OpId) (env : Env) (ins : List String)
    (again : List String → List Event × Outcome) : List Event × Outcome :=
  match runOp o env ins with
  | (tr, .ret rest) =>
    let r := again rest
    (disp ++ tr ++ r.1, r.2)
  | (tr, out) => (disp ++ tr, out)

/-- `handle_configure_menu()`. -/
def handle_configure_menu (env : Env) : Nat → List String → List Event × Outcome
  | 0, _ => ([], .fuelOut)
  | fuel + 1, ins =>
    let disp := display_configure_menu
    readLn disp ins fun raw ins1 =>
      let t := pyUpper (get_input raw)
      match menuAction .Configure t with
      | .op o => opThen disp o env ins1 (handle_configure_menu env fuel)
      | .back => (disp, .ret ins1)
      | .invalid => invalidBranch disp ins1 (handle_configure_menu env fuel)
      | _ => (disp, .fuelOut)

/-- `handle_vm_menu()`. -/
def handle_vm_menu (env : Env) : Nat → List String → List Event × Outcome
  | 0, _ => ([], .fuelOut)
  | fuel + 1, ins =>
    let disp := display_vm_menu
    readLn disp ins fun raw ins1 =>
      let t := pyUpper (get_input raw)
      match menuAction .VMDeploy t with
      | .op o => opThen disp o env ins1 (handle_vm_menu env fuel)
      | .back => (disp, .ret ins1)
      | .invalid => invalidBranch disp ins1 (handle_vm_menu env fuel)
      | _ => (disp, .fuelOut)

/-- `handle_config_management_menu()`. -/
def handle_config_management_menu (env : Env) : Nat → List String → List Event × Outcome
  | 0, _ => ([], .fuelOut)
  | fuel + 1, ins =>
    let disp := display_config_management_menu
    readLn disp ins fun raw ins1 =>
      let t := pyUpper (get_input raw)
      match menuAction .ConfigManagement t with
      | .op o => opThen disp o env ins1 (handle_config_management_menu env fuel)
      | .back => (disp, .ret ins1)
      | .invalid => invalidBranch disp ins1 (handle_config_management_menu env fuel)
      | _ => (disp, .fuelOut)

/-- The `while True` loop of `main()`. -/
def mainLoop (env : Env) : Nat → List String → List Event × Outcome
  | 0, _ => ([], .fuelOut)
  | fuel + 1, ins =>
    match display_main_menu env with
    | (de, none) => (de, .exited 1)
    | (de, some _) =>
      readLn de ins fun raw ins1 =>
        let t := pyUpper (get_input raw)
        match menuAction .Main t with
        | .op o => opThen de o env ins1 (mainLoop env fuel)
        | .enter s =>
          let sub :=
            match s with
            | .Configure => handle_configure_menu env fuel ins1
            | .VMDeploy => handle_vm_menu env fuel ins1
            | .ConfigManagement => handle_config_management_menu env fuel ins1
            | .Main => ([], .fuelOut)
          match sub with
          | (tr, .ret rest) =>
            let r := mainLoop env fuel rest
            (de ++ tr ++ r.1, r.2)
          | (tr, out) => (de ++ tr, out)
        | .quit =>
          (de ++ [.print "", .info "Thank you for using ECST VMware Automation Tool!", .print ""],
           .exited 0)
        | .invalid => invalidBranch de ins1 (mainLoop env fuel)
        | .back => (de, .fuelOut)

/-- `main()`: the startup existence check, then the menu loop (fuel one
more than the number of input lines, which no run can exhaust). `main` is
reserved in Lean, hence the prime. -/
def main' (env : Env) (ins : List String) : List Event × Outcome :=
  if env.configExists then mainLoop env (ins.length + 1) ins
  else
    ([ .error ("Configuration file not found: " ++ CONFIG_FILE),
       .info "Please create a config.json file before running this tool." ], .exited 1)

/-! ## Statement helpers and concrete test fixtures -/

/-- A run that made no backend invocations, reported the given
cancellation warning, and returned to the owning menu with the rest of
the input intact. -/
def cancelsCleanly (r : List Event × Outcome) (msg : String) (rest : List String) : Prop :=
  invocationsOf r.1 = [] ∧ Event.warn msg ∈ r.1 ∧ r.2 = Outcome.ret rest

/-- A run that made no backend invocations, reported the given error, and
returned to the owning menu with the rest of the input intact. -/
def abortsCleanly (r : List Event × Outcome) (msg : String) (rest : List String) : Prop :=
  invocationsOf r.1 = [] ∧ Event.error msg ∈ r.1 ∧ r.2 = Outcome.ret rest

/-- A concrete configuration document (field view) for witnesses. -/
def cfg0 : Config :=
  { environment := ⟨"Prod"⟩,
    vcenter := ⟨"vc.local", ⟨"esx1", "vcsa.local", "10.0.0.10", "small", "vsphere.local"⟩⟩,
    datacenter := ⟨"DC1"⟩,
    cluster := ⟨"CL1", ⟨true⟩, ⟨true, "FullyAutomated"⟩⟩,
    esxiHosts := [⟨"esx1", "10.1.0.1"⟩, ⟨"esx2", "10.1.0.2"⟩],
    networking := ⟨⟨"VDS1", "7.0.0", 9000, 2, "LoadBalanceIP"⟩,
      [⟨"PG-VMTraffic", 100, "static"⟩], ⟨true, "10.2.0.1", "255.255.255.0"⟩⟩,
    storage := ⟨⟨true, "automatic", false, true⟩⟩,
    services := ⟨⟨["ntp1"], "on"⟩, ⟨["8.8.8.8"], ["corp.local"]⟩, ⟨"syslog1", 514, "udp"⟩⟩,
    security := ⟨"normal", false, 600, ["sshServer"]⟩ }

/-- An environment with a well-formed configuration, all scripts present,
and a backend that always succeeds. -/
def env0 : Env :=
  { configExists := true, config := some cfg0, configDoc := JVal.obj [],
    scriptExists := fun _ => true, exitOf := fun _ => 0 }

/-- Like `env0`, but the backend always exits with status 5. -/
def envFail : Env :=
  { configExists := true, config := some cfg0, configDoc := JVal.obj [],
    scriptExists := fun _ => true, exitOf := fun _ => 5 }

/-- An environment whose configuration file is missing. -/
def envMissing : Env :=
  { configExists := false, config := none, configDoc := JVal.obj [],
    scriptExists := fun _ => false, exitOf := fun _ => 0 }

/-- An environment whose configuration file exists but is not valid JSON. -/
def envMalformed : Env :=
  { configExists := true, config := none, configDoc := JVal.obj [],
    scriptExists := fun _ => true, exitOf := fun _ => 0 }

/-- A concrete JSON document text (with incidental whitespace) for the
round-trip witness. -/
def sampleText : List Char :=
  "  \x7b \"name\" : \"Pro\\u00e9d\", \"port\" : 514, \"ha\" : true, \"tags\" : [ 1, -2 ] \x7d ".data

/-- The document `sampleText` parses to. -/
def sampleDoc : JVal :=
  JVal.obj [("name".data, JVal.str "Proéd".data), ("port".data, JVal.num 514),
    ("ha".data, JVal.bool true), ("tags".data, JVal.arr [JVal.num 1, JVal.num (-2)])]

/-! # Theorems

## JSON round trip: `json.load` after `json.dump(..., indent=2)` -/

-- basic ws / digit / hex lemmas
theorem jWs_false_of_ge (c : Char) (h : 33 ≤ c.toNat) : jWs c = false := by
  unfold jWs
  have h1 : c ≠ ' ' := fun he => by subst he; exact absurd h (by decide)
  have h2 : c ≠ '\t' := fun he => by subst he; exact absurd h (by decide)
  have h3 : c ≠ '\n' := fun he => by subst he; exact absurd h (by decide)
  have h4 : c ≠ '\r' := fun he => by subst he; exact absurd h (by decide)
  simp [h1, h2, h3, h4]

theorem skipWs_cons_ws (c : Char) (cs : List Char) (h : jWs c = true) :
    skipWs (c :: cs) = skipWs cs := by
  simp [skipWs, List.dropWhile_cons, h]

theorem skipWs_cons_not_ws (c : Char) (cs : List Char) (h : jWs c = false) :
    skipWs (c :: cs) = c :: cs := by
  simp [skipWs, List.dropWhile_cons, h]

theorem skipWs_indent (n : Nat) (cs : List Char) :
    skipWs (jIndent n ++ cs) = skipWs cs := by
  induction n with
  | zero => simp [jIndent]
  | succ m ih =>
    have : jIndent (m + 1) = ' ' :: jIndent m := by
      simp [jIndent, List.replicate_succ]
    rw [this, List.cons_append, skipWs_cons_ws _ _ (by decide), ih]

theorem skipWs_nl_indent (n : Nat) (cs : List Char) :
    skipWs ('\n' :: (jIndent n ++ cs)) = skipWs cs := by
  rw [skipWs_cons_ws _ _ (by decide), skipWs_indent]

theorem hexVal_hexDigit : ∀ k, k < 16 → hexVal (hexDigit k) = some k := by decide

theorem decodeU_hexQuad (m : Nat) (hm : m < 65536) :
    decodeU (hexDigit (m / 4096 % 16)) (hexDigit (m / 256 % 16))
      (hexDigit (m / 16 % 16)) (hexDigit (m % 16)) = some m := by
  unfold decodeU
  rw [hexVal_hexDigit _ (by omega), hexVal_hexDigit _ (by omega),
      hexVal_hexDigit _ (by omega), hexVal_hexDigit _ (by omega)]
  have he : ((m / 4096 % 16 * 16 + m / 256 % 16) * 16 + m / 16 % 16) * 16 + m % 16 = m := by
    omega
  simp [he]

theorem readU_bmp (m : Nat) (tail : List Char) (hm : m < 65536)
    (hv : m < 55296 ∨ 57344 ≤ m) :
    readU (hexQuad m ++ tail) = some (Char.ofNat m, tail) := by
  simp only [hexQuad, List.cons_append, List.nil_append, readU]
  rw [decodeU_hexQuad m hm]
  simp [hv]

theorem readU_astral (hi lo : Nat) (tail : List Char)
    (hhi : 55296 ≤ hi ∧ hi < 56320) (hlo : 56320 ≤ lo ∧ lo < 57344) :
    readU (hexQuad hi ++ ('\\' :: 'u' :: (hexQuad lo ++ tail))) =
      some (Char.ofNat ((hi - 55296) * 1024 + (lo - 56320) + 65536), tail) := by
  simp only [hexQuad, List.cons_append, List.nil_append, readU]
  rw [decodeU_hexQuad hi (by omega)]
  have h1 : ¬ (hi < 55296 ∨ 57344 ≤ hi) := by omega
  have h2 : hi < 56320 := by omega
  have h3 : 56320 ≤ lo ∧ lo < 57344 := by omega
  simp only [h1, h2, h3, if_false, if_true, iff_true, decide_True]
  rw [decodeU_hexQuad lo (by omega)]
  simp [h3]

theorem char_valid_nat (c : Char) : c.toNat < 55296 ∨ (57343 < c.toNat ∧ c.toNat < 1114112) :=
  c.valid

theorem psb_quote (fuel : Nat) (rest : List Char) :
    parseStrBody (fuel + 1) ('"' :: rest) = some ([], rest) := by
  rw [parseStrBody]
  simp

theorem psb_backslash (fuel : Nat) (cs : List Char) :
    parseStrBody (fuel + 1) ('\\' :: cs) =
      (readEsc cs).bind (fun p => strCons p.1 (parseStrBody fuel p.2)) := by
  rw [parseStrBody]
  simp only [reduceIte]
  match readEsc cs with
  | some (d, rest2) => rfl
  | none => rfl

theorem psb_other (fuel : Nat) (c : Char) (rest : List Char)
    (h1 : ¬ c = '"') (h2 : ¬ c = '\\') :
    parseStrBody (fuel + 1) (c :: rest) = strCons c (parseStrBody fuel rest) := by
  rw [parseStrBody]
  rw [if_neg h1, if_neg h2]

theorem readEsc_short (e d : Char) (rest : List Char) (hne : ¬ e = 'u')
    (hd : escDecode e = some d) : readEsc (e :: rest) = some (d, rest) := by
  show (if e = 'u' then readU rest
    else match escDecode e with | some d => some (d, rest) | none => none) = some (d, rest)
  rw [if_neg hne, hd]

theorem readEsc_u (rest : List Char) : readEsc ('u' :: rest) = readU rest := by
  show (if 'u' = 'u' then readU rest
    else match escDecode 'u' with | some d => some (d, rest) | none => none) = readU rest
  rw [if_pos rfl]

theorem parseStrBody_escChar (fuel : Nat) (c : Char) (tail : List Char) :
    parseStrBody (fuel + 1) (escChar c ++ tail) = strCons c (parseStrBody fuel tail) := by
  by_cases h1 : c = '"'
  · subst h1
    show parseStrBody (fuel + 1) ('\\' :: '"' :: tail) = _
    rw [psb_backslash, readEsc_short '"' '"' tail (by decide) (by decide)]
    rfl
  by_cases h2 : c = '\\'
  · subst h2
    show parseStrBody (fuel + 1) ('\\' :: '\\' :: tail) = _
    rw [psb_backslash, readEsc_short '\\' '\\' tail (by decide) (by decide)]
    rfl
  by_cases h3 : c = '\n'
  · subst h3
    show parseStrBody (fuel + 1) ('\\' :: 'n' :: tail) = _
    rw [psb_backslash, readEsc_short 'n' '\n' tail (by decide) (by decide)]
    rfl
  by_cases h4 : c = '\r'
  · subst h4
    show parseStrBody (fuel + 1) ('\\' :: 'r' :: tail) = _
    rw [psb_backslash, readEsc_short 'r' '\r' tail (by decide) (by decide)]
    rfl
  by_cases h5 : c = '\t'
  · subst h5
    show parseStrBody (fuel + 1) ('\\' :: 't' :: tail) = _
    rw [psb_backslash, readEsc_short 't' '\t' tail (by decide) (by decide)]
    rfl
  by_cases h6 : c.toNat = 8
  · have hc : c = Char.ofNat 8 := by rw [← h6, Char.ofNat_toNat]
    subst hc
    show parseStrBody (fuel + 1) ('\\' :: 'b' :: tail) = _
    rw [psb_backslash, readEsc_short 'b' (Char.ofNat 8) tail (by decide) (by decide)]
    rfl
  by_cases h7 : c.toNat = 12
  · have hc : c = Char.ofNat 12 := by rw [← h7, Char.ofNat_toNat]
    subst hc
    show parseStrBody (fuel + 1) ('\\' :: 'f' :: tail) = _
    rw [psb_backslash, readEsc_short 'f' (Char.ofNat 12) tail (by decide) (by decide)]
    rfl
  by_cases h8 : c.toNat < 32
  · have hesc : escChar c = uEscape c.toNat := by
      unfold escChar
      rw [if_neg h1, if_neg h2, if_neg h3, if_neg h4, if_neg h5, if_neg h6, if_neg h7,
          if_pos h8]
    rw [hesc]
    show parseStrBody (fuel + 1) ('\\' :: 'u' :: (hexQuad c.toNat ++ tail)) = _
    rw [psb_backslash, readEsc_u, readU_bmp c.toNat tail (by omega) (by omega),
        Char.ofNat_toNat]
    rfl
  by_cases h9 : c.toNat < 127
  · have hesc : escChar c = [c] := by
      unfold escChar
      rw [if_neg h1, if_neg h2, if_neg h3, if_neg h4, if_neg h5, if_neg h6, if_neg h7,
          if_neg h8, if_pos h9]
    rw [hesc]
    show parseStrBody (fuel + 1) (c :: tail) = _
    rw [psb_other fuel c tail h1 h2]
  by_cases h10 : c.toNat < 65536
  · have hesc : escChar c = uEscape c.toNat := by
      unfold escChar
      rw [if_neg h1, if_neg h2, if_neg h3, if_neg h4, if_neg h5, if_neg h6, if_neg h7,
          if_neg h8, if_neg h9, if_pos h10]
    rw [hesc]
    show parseStrBody (fuel + 1) ('\\' :: 'u' :: (hexQuad c.toNat ++ tail)) = _
    have hv : c.toNat < 55296 ∨ 57344 ≤ c.toNat := by
      rcases char_valid_nat c with h | h
      · exact Or.inl h
      · exact Or.inr (by omega)
    rw [psb_backslash, readEsc_u, readU_bmp c.toNat tail h10 hv, Char.ofNat_toNat]
    rfl
  · have hbig : 65536 ≤ c.toNat := by omega
    have hlt : c.toNat < 1114112 := by
      rcases char_valid_nat c with h | h
      · omega
      · exact h.2
    have hesc : escChar c =
        uEscape ((c.toNat - 65536) / 1024 + 55296) ++ uEscape ((c.toNat - 65536) % 1024 + 56320) := by
      unfold escChar
      rw [if_neg h1, if_neg h2, if_neg h3, if_neg h4, if_neg h5, if_neg h6, if_neg h7,
          if_neg h8, if_neg h9, if_neg h10]
    rw [hesc]
    show parseStrBody (fuel + 1)
      ('\\' :: 'u' :: (hexQuad ((c.toNat - 65536) / 1024 + 55296) ++
        ('\\' :: 'u' :: (hexQuad ((c.toNat - 65536) % 1024 + 56320) ++ tail)))) = _
    have harith : ((c.toNat - 65536) / 1024 + 55296 - 55296) * 1024 +
        ((c.toNat - 65536) % 1024 + 56320 - 56320) + 65536 = c.toNat := by omega
    rw [psb_backslash, readEsc_u,
        readU_astral ((c.toNat - 65536) / 1024 + 55296) ((c.toNat - 65536) % 1024 + 56320)
          tail (by omega) (by omega),
        harith, Char.ofNat_toNat]
    rfl

set_option maxHeartbeats 1000000 in
theorem escChar_length_pos (c : Char) : 1 ≤ (escChar c).length := by
  unfold escChar
  split_ifs <;> simp [uEscape, hexQuad]

theorem escBody_length_ge (s : List Char) : s.length ≤ (escBody s).length := by
  induction s with
  | nil => simp [escBody]
  | cons c s ih =>
    have : escBody (c :: s) = escChar c ++ escBody s := by simp [escBody]
    rw [this, List.length_append, List.length_cons]
    have := escChar_length_pos c
    omega

theorem parseStrBody_escBody (s : List Char) : ∀ (fuel : Nat) (rest : List Char),
    parseStrBody (s.length + fuel + 1) (escBody s ++ ('"' :: rest)) = some (s, rest) := by
  induction s with
  | nil =>
    intro fuel rest
    show parseStrBody (fuel + 1) ('"' :: rest) = some ([], rest)
    exact psb_quote fuel rest
  | cons c s ih =>
    intro fuel rest
    have he : escBody (c :: s) = escChar c ++ escBody s := by simp [escBody]
    have hl : (c :: s).length + fuel + 1 = (s.length + fuel + 1) + 1 := by
      simp [List.length_cons]; omega
    rw [he, hl, List.append_assoc, parseStrBody_escChar, ih fuel rest]
    rfl

theorem parseStr_escBody (s rest : List Char) :
    parseStr (escBody s ++ ('"' :: rest)) = some (s, rest) := by
  unfold parseStr
  have hge := escBody_length_ge s
  have : (escBody s ++ ('"' :: rest)).length + 1 =
      s.length + ((escBody s).length - s.length + rest.length + 1) + 1 := by
    rw [List.length_append, List.length_cons]
    omega
  rw [this]
  exact parseStrBody_escBody s _ rest

theorem charToNat_ofNat {n : Nat} (h : n.isValidChar) : (Char.ofNat n).toNat = n := by
  simp only [Char.ofNat, dif_pos h, Char.ofNatAux, Char.toNat, UInt32.toNat]
  rfl

theorem isDigit_iff (c : Char) : c.isDigit = true ↔ 48 ≤ c.toNat ∧ c.toNat ≤ 57 := by
  simp only [Char.isDigit, Bool.and_eq_true, decide_eq_true_eq]
  constructor
  · intro ⟨h1, h2⟩
    exact ⟨h1, h2⟩
  · intro ⟨h1, h2⟩
    exact ⟨h1, h2⟩


theorem natToCharsAux_spec : ∀ fuel n, n < fuel →
    natToCharsAux fuel n ≠ [] ∧ ∀ c ∈ natToCharsAux fuel n, 48 ≤ c.toNat ∧ c.toNat ≤ 57 := by
  intro fuel
  induction fuel with
  | zero => intro n h; omega
  | succ f ih =>
    intro n h
    have hunf : natToCharsAux (f + 1) n = if n < 10 then [Char.ofNat (48 + n)]
        else natToCharsAux f (n / 10) ++ [Char.ofNat (48 + n % 10)] := rfl
    rw [hunf]
    by_cases h10 : n < 10
    · rw [if_pos h10]
      refine ⟨by simp, ?_⟩
      intro c hc
      simp at hc
      subst hc
      rw [charToNat_ofNat (Or.inl (by omega))]
      omega
    · rw [if_neg h10]
      have hdiv : n / 10 < f := by
        have := Nat.div_lt_self (by omega : 0 < n) (by omega : 1 < 10)
        omega
      obtain ⟨hne, hall⟩ := ih (n / 10) hdiv
      refine ⟨by simp, ?_⟩
      intro c hc
      rw [List.mem_append] at hc
      rcases hc with hc | hc
      · exact hall c hc
      · simp at hc
        subst hc
        rw [charToNat_ofNat (Or.inl (by omega))]
        omega

theorem readDigits_of_digits : ∀ (ds : List Char) (acc : Nat) (rest : List Char),
    (∀ c ∈ ds, 48 ≤ c.toNat ∧ c.toNat ≤ 57) → noDigitHead rest →
    readDigits (ds ++ rest) acc =
      (ds.foldl (fun a c => a * 10 + (c.toNat - 48)) acc, rest) := by
  intro ds
  induction ds with
  | nil =>
    intro acc rest _ hrest
    match rest with
    | [] => rfl
    | c :: cs =>
      show readDigits (c :: cs) acc = (acc, c :: cs)
      unfold readDigits
      rw [hrest]
      simp
  | cons d ds ih =>
    intro acc rest hall hrest
    show readDigits (d :: (ds ++ rest)) acc = _
    unfold readDigits
    have hd : d.isDigit = true := (isDigit_iff d).mpr (hall d (by simp))
    rw [hd]
    simp only [if_true]
    rw [ih _ rest (fun c hc => hall c (by simp [hc])) hrest]
    rfl

theorem foldl_natToCharsAux : ∀ fuel n acc, n < fuel →
    (natToCharsAux fuel n).foldl (fun a c => a * 10 + (c.toNat - 48)) acc =
      acc * 10 ^ (natToCharsAux fuel n).length + n := by
  intro fuel
  induction fuel with
  | zero => intro n acc h; omega
  | succ f ih =>
    intro n acc h
    have hunf : natToCharsAux (f + 1) n = if n < 10 then [Char.ofNat (48 + n)]
        else natToCharsAux f (n / 10) ++ [Char.ofNat (48 + n % 10)] := rfl
    rw [hunf]
    by_cases h10 : n < 10
    · rw [if_pos h10]
      simp only [List.foldl_cons, List.foldl_nil, List.length_cons, List.length_nil]
      rw [charToNat_ofNat (Or.inl (by omega))]
      simp [Nat.pow_succ]
      try omega
    · rw [if_neg h10]
      have hdiv : n / 10 < f := by
        have := Nat.div_lt_self (by omega : 0 < n) (by omega : 1 < 10)
        omega
      rw [List.foldl_append, List.length_append]
      rw [ih (n / 10) acc hdiv]
      simp only [List.foldl_cons, List.foldl_nil, List.length_cons, List.length_nil]
      rw [charToNat_ofNat (Or.inl (by omega))]
      rw [Nat.pow_succ]
      have hmul : (acc * 10 ^ (natToCharsAux f (n / 10)).length + n / 10) * 10 + (48 + n % 10 - 48) =
          acc * (10 ^ (natToCharsAux f (n / 10)).length * 10) + (n / 10 * 10 + n % 10) := by
        ring_nf
        omega
      rw [hmul]
      congr 1
      omega

theorem readDigits_natToChars (n : Nat) (rest : List Char) (hrest : noDigitHead rest) :
    readDigits (natToChars n ++ rest) 0 = (n, rest) := by
  unfold natToChars
  rw [readDigits_of_digits _ 0 rest (natToCharsAux_spec (n + 1) n (by omega)).2 hrest]
  rw [foldl_natToCharsAux (n + 1) n 0 (by omega)]
  simp

theorem natToChars_head (n : Nat) :
    ∃ d t, natToChars n = d :: t ∧ 48 ≤ d.toNat ∧ d.toNat ≤ 57 := by
  obtain ⟨hne, hall⟩ := natToCharsAux_spec (n + 1) n (by omega)
  match hl : natToCharsAux (n + 1) n with
  | [] => exact absurd hl hne
  | d :: t =>
    refine ⟨d, t, hl, ?_⟩
    have := hall d (by rw [hl]; simp)
    exact this

theorem pv_quote (fuel : Nat) (cs' : List Char) :
    parseVal (fuel + 1) ('"' :: cs') =
      (parseStr cs').map (fun p => (JVal.str p.1, p.2)) := by
  rw [parseVal, skipWs_cons_not_ws _ _ (by decide)]
  simp

theorem pv_null (fuel : Nat) (rest : List Char) :
    parseVal (fuel + 1) ('n' :: 'u' :: 'l' :: 'l' :: rest) = some (JVal.null, rest) := by
  rw [parseVal, skipWs_cons_not_ws _ _ (by decide)]
  simp

theorem pv_true (fuel : Nat) (rest : List Char) :
    parseVal (fuel + 1) ('t' :: 'r' :: 'u' :: 'e' :: rest) = some (JVal.bool true, rest) := by
  rw [parseVal, skipWs_cons_not_ws _ _ (by decide)]
  simp

theorem pv_false (fuel : Nat) (rest : List Char) :
    parseVal (fuel + 1) ('f' :: 'a' :: 'l' :: 's' :: 'e' :: rest) = some (JVal.bool false, rest) := by
  rw [parseVal, skipWs_cons_not_ws _ _ (by decide)]
  simp

theorem pv_digit (fuel : Nat) (c : Char) (cs' : List Char)
    (hc : 48 ≤ c.toNat ∧ c.toNat ≤ 57) :
    parseVal (fuel + 1) (c :: cs') =
      some (JVal.num ((readDigits (c :: cs') 0).1 : Int), (readDigits (c :: cs') 0).2) := by
  rw [parseVal, skipWs_cons_not_ws _ _ (jWs_false_of_ge c (by omega))]
  have h1 : ¬ c = '"' := fun h => by subst h; exact absurd hc (by decide)
  have h2 : ¬ c = '\x7b' := fun h => by subst h; exact absurd hc (by decide)
  have h3 : ¬ c = '[' := fun h => by subst h; exact absurd hc (by decide)
  have h4 : ¬ c = 't' := fun h => by subst h; exact absurd hc (by decide)
  have h5 : ¬ c = 'f' := fun h => by subst h; exact absurd hc (by decide)
  have h6 : ¬ c = 'n' := fun h => by subst h; exact absurd hc (by decide)
  have h7 : ¬ c = '-' := fun h => by subst h; exact absurd hc (by decide)
  have h8 : c.isDigit = true := (isDigit_iff c).mpr hc
  simp only [if_neg h1, if_neg h2, if_neg h3, if_neg h4, if_neg h5, if_neg h6, if_neg h7, h8,
    if_true]

theorem pv_minus (fuel : Nat) (d : Char) (t : List Char)
    (hd : 48 ≤ d.toNat ∧ d.toNat ≤ 57) :
    parseVal (fuel + 1) ('-' :: d :: t) =
      some (JVal.num (-((readDigits (d :: t) 0).1 : Int)), (readDigits (d :: t) 0).2) := by
  rw [parseVal, skipWs_cons_not_ws _ _ (by decide)]
  have h8 : d.isDigit = true := (isDigit_iff d).mpr hd
  simp [h8]

theorem pv_arrNil (fuel : Nat) (rest : List Char) :
    parseVal (fuel + 1) ('[' :: ']' :: rest) = some (JVal.arr [], rest) := by
  rw [parseVal, skipWs_cons_not_ws _ _ (by decide)]
  simp [skipWs_cons_not_ws ']' rest (by decide)]

theorem pv_objNil (fuel : Nat) (rest : List Char) :
    parseVal (fuel + 1) ('\x7b' :: '\x7d' :: rest) = some (JVal.obj [], rest) := by
  rw [parseVal, skipWs_cons_not_ws _ _ (by decide)]
  simp [skipWs_cons_not_ws '\x7d' rest (by decide)]

theorem pv_arr (fuel : Nat) (cs' : List Char) (c0 : Char) (t0 : List Char)
    (h : skipWs cs' = c0 :: t0) (hne : ¬ c0 = ']') :
    parseVal (fuel + 1) ('[' :: cs') = parseArrItems fuel cs' [] := by
  rw [parseVal, skipWs_cons_not_ws _ _ (by decide)]
  simp only [reduceCtorEq, reduceIte, Char.reduceEq]
  rw [h]
  split
  · rename_i heq
    rw [List.cons.injEq] at heq
    exact absurd heq.1 hne
  · rfl

theorem pv_obj (fuel : Nat) (cs' : List Char) (c0 : Char) (t0 : List Char)
    (h : skipWs cs' = c0 :: t0) (hne : ¬ c0 = '\x7d') :
    parseVal (fuel + 1) ('\x7b' :: cs') = parseObjItems fuel cs' [] := by
  rw [parseVal, skipWs_cons_not_ws _ _ (by decide)]
  simp only [reduceCtorEq, reduceIte, Char.reduceEq]
  rw [h]
  split
  · rename_i heq
    rw [List.cons.injEq] at heq
    exact absurd heq.1 hne
  · rfl

theorem pv_ws_nl_indent (fuel n : Nat) (cs : List Char) :
    parseVal fuel ('\n' :: (jIndent n ++ cs)) = parseVal fuel cs := by
  match fuel with
  | 0 => rfl
  | fuel + 1 =>
    rw [parseVal, parseVal, skipWs_nl_indent]

theorem pv_space (fuel : Nat) (cs : List Char) :
    parseVal fuel (' ' :: cs) = parseVal fuel cs := by
  match fuel with
  | 0 => rfl
  | fuel + 1 =>
    rw [parseVal, parseVal, skipWs_cons_ws _ _ (by decide)]

theorem jsize_pos : ∀ v, 1 ≤ jsize v := by
  intro v
  match v with
  | .null | .bool _ | .num _ | .str _ => simp [jsize]
  | .arr xs => show 1 ≤ 1 + jsizeArr xs; omega
  | .obj ms => show 1 ≤ 1 + jsizeObj ms; omega

theorem jdumpVal_head (v : JVal) (L : Nat) :
    ∃ c t, jdumpVal v L = c :: t ∧ jWs c = false ∧ ¬ c = ']' ∧ ¬ c = '\x7d' := by
  match v with
  | .null => exact ⟨'n', _, rfl, by decide, by decide, by decide⟩
  | .bool true => exact ⟨'t', _, rfl, by decide, by decide, by decide⟩
  | .bool false => exact ⟨'f', _, rfl, by decide, by decide, by decide⟩
  | .str s => exact ⟨'"', _, rfl, by decide, by decide, by decide⟩
  | .arr [] => exact ⟨'[', _, rfl, by decide, by decide, by decide⟩
  | .arr (x :: xs) =>
    refine ⟨'[', '\n' :: (jIndent (L + 2) ++ (jdumpVal x (L + 2) ++ (jdumpArr xs (L + 2) ++
      ('\n' :: (jIndent L ++ [']']))))), ?_, by decide, by decide, by decide⟩
    show ['[', '\n'] ++ jIndent (L + 2) ++ jdumpVal x (L + 2) ++
      jdumpArr xs (L + 2) ++ ['\n'] ++ jIndent L ++ [']'] = _
    simp [List.cons_append, List.append_assoc]
  | .obj [] => exact ⟨'\x7b', _, rfl, by decide, by decide, by decide⟩
  | .obj ((k, v') :: ms) =>
    refine ⟨'\x7b', '\n' :: (jIndent (L + 2) ++ (escString k ++ (':' :: ' ' ::
      (jdumpVal v' (L + 2) ++ (jdumpObj ms (L + 2) ++ ('\n' :: (jIndent L ++ ['\x7d']))))))),
      ?_, by decide, by decide, by decide⟩
    show ['\x7b', '\n'] ++ jIndent (L + 2) ++ escString k ++ [':', ' '] ++
      jdumpVal v' (L + 2) ++ jdumpObj ms (L + 2) ++ ['\n'] ++ jIndent L ++ ['\x7d'] = _
    simp [List.cons_append, List.append_assoc, escString]
  | .num n =>
    unfold jdumpVal intToChars
    by_cases hn : n < 0
    · exact ⟨'-', _, by rw [if_pos hn], by decide, by decide, by decide⟩
    · rw [if_neg hn]
      obtain ⟨d, t, hdt, hd⟩ := natToChars_head n.toNat
      refine ⟨d, t, hdt, jWs_false_of_ge d (by omega), ?_, ?_⟩
      · intro h; subst h; exact absurd hd (by decide)
      · intro h; subst h; exact absurd hd (by decide)

theorem jdumpArr_nil (L : Nat) : jdumpArr [] L = [] := rfl

theorem jdumpArr_cons (x : JVal) (xs : List JVal) (L : Nat) :
    jdumpArr (x :: xs) L = ',' :: '\n' :: (jIndent L ++ (jdumpVal x L ++ jdumpArr xs L)) := by
  show [',', '\n'] ++ jIndent L ++ jdumpVal x L ++ jdumpArr xs L = _
  simp [List.append_assoc]

theorem jdumpObj_nil (L : Nat) : jdumpObj [] L = [] := rfl

theorem jdumpObj_cons (k : List Char) (v : JVal) (ms : List (List Char × JVal)) (L : Nat) :
    jdumpObj ((k, v) :: ms) L =
      ',' :: '\n' :: (jIndent L ++ (escString k ++ (':' :: ' ' ::
        (jdumpVal v L ++ jdumpObj ms L)))) := by
  show [',', '\n'] ++ jIndent L ++ escString k ++ [':', ' '] ++ jdumpVal v L ++ jdumpObj ms L = _
  simp [List.append_assoc, escString]

theorem noDigitHead_arrTail (xs : List JVal) (L W : Nat) (rest : List Char) :
    noDigitHead (jdumpArr xs L ++ ('\n' :: (jIndent W ++ (']' :: rest)))) := by
  cases xs with
  | nil =>
    rw [jdumpArr_nil, List.nil_append]
    exact (by decide : ('\n').isDigit = false)
  | cons x xs =>
    rw [jdumpArr_cons, List.cons_append]
    exact (by decide : (',').isDigit = false)

theorem noDigitHead_objTail (ms : List (List Char × JVal)) (L W : Nat) (rest : List Char) :
    noDigitHead (jdumpObj ms L ++ ('\n' :: (jIndent W ++ ('\x7d' :: rest)))) := by
  cases ms with
  | nil =>
    rw [jdumpObj_nil, List.nil_append]
    exact (by decide : ('\n').isDigit = false)
  | cons m ms =>
    match m with
    | (k, v) =>
      rw [jdumpObj_cons, List.cons_append]
      exact (by decide : (',').isDigit = false)

theorem pai_succ (fuel : Nat) (cs : List Char) (acc : List JVal) :
    parseArrItems (fuel + 1) cs acc = (parseVal fuel cs).bind (fun p =>
      match skipWs p.2 with
      | ',' :: r' => parseArrItems fuel r' (acc ++ [p.1])
      | ']' :: r' => some (JVal.arr (acc ++ [p.1]), r')
      | _ => none) := by
  rw [parseArrItems]
  match parseVal fuel cs with
  | none => rfl
  | some (v, r) => rfl

theorem skipWs_cons (c : Char) (cs : List Char) :
    skipWs (c :: cs) = if jWs c then skipWs cs else c :: cs := by
  by_cases h : jWs c
  · rw [if_pos h, skipWs_cons_ws c cs h]
  · rw [if_neg h, skipWs_cons_not_ws c cs (by simpa using h)]

theorem parse_jdump : ∀ fuel : Nat,
    (∀ (v : JVal) (L : Nat) (rest : List Char), jsize v ≤ fuel → noDigitHead rest →
      parseVal fuel (jdumpVal v L ++ rest) = some (v, rest)) ∧
    (∀ (x : JVal) (xs : List JVal) (L W : Nat) (rest : List Char) (acc : List JVal),
      1 + jsize x + jsizeArr xs ≤ fuel →
      parseArrItems fuel ('\n' :: (jIndent L ++ (jdumpVal x L ++ (jdumpArr xs L ++
        ('\n' :: (jIndent W ++ (']' :: rest))))))) acc =
        some (JVal.arr (acc ++ x :: xs), rest)) ∧
    (∀ (k : List Char) (v : JVal) (ms : List (List Char × JVal)) (L W : Nat)
      (rest : List Char) (acc : List (List Char × JVal)),
      1 + jsize v + jsizeObj ms ≤ fuel →
      parseObjItems fuel ('\n' :: (jIndent L ++ (escString k ++ (':' :: ' ' ::
        (jdumpVal v L ++ (jdumpObj ms L ++ ('\n' :: (jIndent W ++ ('\x7d' :: rest)))))))))
        acc = some (JVal.obj (acc ++ (k, v) :: ms), rest)) := by
  intro fuel
  induction fuel with
  | zero =>
    refine ⟨?_, ?_, ?_⟩
    · intro v L rest hsz _
      have := jsize_pos v
      omega
    · intro x xs L W rest acc hb
      omega
    · intro k v ms L W rest acc hb
      omega
  | succ g IH =>
    obtain ⟨IH1, IH2, IH3⟩ := IH
    refine ⟨?_, ?_, ?_⟩
    · -- P1
      intro v L rest hsz hnd
      match v with
      | JVal.null =>
        show parseVal (g + 1) (['n', 'u', 'l', 'l'] ++ rest) = _
        simp only [List.cons_append, List.nil_append]
        exact pv_null g rest
      | JVal.bool true =>
        show parseVal (g + 1) (['t', 'r', 'u', 'e'] ++ rest) = _
        simp only [List.cons_append, List.nil_append]
        exact pv_true g rest
      | JVal.bool false =>
        show parseVal (g + 1) (['f', 'a', 'l', 's', 'e'] ++ rest) = _
        simp only [List.cons_append, List.nil_append]
        exact pv_false g rest
      | JVal.str s =>
        show parseVal (g + 1) (('"' :: (escBody s ++ ['"'])) ++ rest) = _
        have hsh : ('"' :: (escBody s ++ ['"'])) ++ rest =
            '"' :: (escBody s ++ ('"' :: rest)) := by
          simp [List.append_assoc]
        rw [hsh, pv_quote, parseStr_escBody]
        rfl
      | JVal.num n =>
        by_cases hn : n < 0
        · have hd : jdumpVal (JVal.num n) L = '-' :: natToChars (-n).toNat := by
            show intToChars n = _
            unfold intToChars
            rw [if_pos hn]
          rw [hd]
          obtain ⟨d, t, hdt, hdig⟩ := natToChars_head (-n).toNat
          rw [hdt]
          show parseVal (g + 1) ('-' :: d :: (t ++ rest)) = _
          rw [pv_minus g d (t ++ rest) hdig]
          have hrd : readDigits ((d :: t) ++ rest) 0 = ((-n).toNat, rest) := by
            rw [← hdt, readDigits_natToChars _ rest hnd]
          rw [List.cons_append] at hrd
          rw [hrd]
          have hcast : -(((-n).toNat : Int)) = n := by
            rw [Int.toNat_of_nonneg (by omega)]
            omega
          rw [hcast]
        · have hd : jdumpVal (JVal.num n) L = natToChars n.toNat := by
            show intToChars n = _
            unfold intToChars
            rw [if_neg hn]
          rw [hd]
          obtain ⟨d, t, hdt, hdig⟩ := natToChars_head n.toNat
          rw [hdt]
          show parseVal (g + 1) (d :: (t ++ rest)) = _
          rw [pv_digit g d (t ++ rest) hdig]
          have hrd : readDigits ((d :: t) ++ rest) 0 = (n.toNat, rest) := by
            rw [← hdt, readDigits_natToChars _ rest hnd]
          rw [List.cons_append] at hrd
          rw [hrd]
          show some (JVal.num (n.toNat : Int), rest) = _
          rw [Int.toNat_of_nonneg (by omega)]
      | JVal.arr [] =>
        show parseVal (g + 1) (['[', ']'] ++ rest) = _
        simp only [List.cons_append, List.nil_append]
        exact pv_arrNil g rest
      | JVal.arr (x :: xs) =>
        have hsh : jdumpVal (JVal.arr (x :: xs)) L ++ rest =
            '[' :: ('\n' :: (jIndent (L + 2) ++ (jdumpVal x (L + 2) ++ (jdumpArr xs (L + 2) ++
              ('\n' :: (jIndent L ++ (']' :: rest))))))) := by
          show (['[', '\n'] ++ jIndent (L + 2) ++ jdumpVal x (L + 2) ++ jdumpArr xs (L + 2) ++
            ['\n'] ++ jIndent L ++ [']']) ++ rest = _
          simp [List.append_assoc]
        rw [hsh]
        obtain ⟨c0, t0, hc0, hws0, hne0, hne0b⟩ := jdumpVal_head x (L + 2)
        have hskip : skipWs ('\n' :: (jIndent (L + 2) ++ (jdumpVal x (L + 2) ++
            (jdumpArr xs (L + 2) ++ ('\n' :: (jIndent L ++ (']' :: rest))))))) =
            c0 :: (t0 ++ (jdumpArr xs (L + 2) ++ ('\n' :: (jIndent L ++ (']' :: rest))))) := by
          rw [skipWs_nl_indent, hc0, List.cons_append, skipWs_cons_not_ws _ _ hws0]
        rw [pv_arr g _ c0 _ hskip hne0]
        have hb2 : 1 + jsize x + jsizeArr xs ≤ g := by
          have e1 : jsize (JVal.arr (x :: xs)) = 1 + (1 + jsize x + jsizeArr xs) := rfl
          omega
        rw [IH2 x xs (L + 2) L rest [] hb2]
        simp
      | JVal.obj [] =>
        show parseVal (g + 1) (['\x7b', '\x7d'] ++ rest) = _
        simp only [List.cons_append, List.nil_append]
        exact pv_objNil g rest
      | JVal.obj ((k, v') :: ms) =>
        have hsh : jdumpVal (JVal.obj ((k, v') :: ms)) L ++ rest =
            '\x7b' :: ('\n' :: (jIndent (L + 2) ++ (escString k ++ (':' :: ' ' ::
              (jdumpVal v' (L + 2) ++ (jdumpObj ms (L + 2) ++
                ('\n' :: (jIndent L ++ ('\x7d' :: rest))))))))) := by
          show (['\x7b', '\n'] ++ jIndent (L + 2) ++ escString k ++ [':', ' '] ++
            jdumpVal v' (L + 2) ++ jdumpObj ms (L + 2) ++ ['\n'] ++ jIndent L ++ ['\x7d']) ++
              rest = _
          simp [List.append_assoc, escString]
        rw [hsh]
        have hskip : skipWs ('\n' :: (jIndent (L + 2) ++ (escString k ++ (':' :: ' ' ::
            (jdumpVal v' (L + 2) ++ (jdumpObj ms (L + 2) ++
              ('\n' :: (jIndent L ++ ('\x7d' :: rest))))))))) =
            '"' :: ((escBody k ++ ['"']) ++ (':' :: ' ' ::
              (jdumpVal v' (L + 2) ++ (jdumpObj ms (L + 2) ++
                ('\n' :: (jIndent L ++ ('\x7d' :: rest))))))) := by
          rw [skipWs_nl_indent]
          show skipWs (('"' :: (escBody k ++ ['"'])) ++ _) = _
          rw [List.cons_append, skipWs_cons_not_ws _ _ (by decide)]
        rw [pv_obj g _ '"' _ hskip (by decide)]
        have hb3 : 1 + jsize v' + jsizeObj ms ≤ g := by
          have e1 : jsize (JVal.obj ((k, v') :: ms)) = 1 + (1 + jsize v' + jsizeObj ms) := rfl
          omega
        rw [IH3 k v' ms (L + 2) L rest [] hb3]
        simp
    · -- P2
      intro x xs L W rest acc hb
      have hx : jsize x ≤ g := by omega
      rw [pai_succ, pv_ws_nl_indent,
          IH1 x L _ hx (noDigitHead_arrTail xs L W rest)]
      simp only [Option.some_bind]
      cases xs with
      | nil =>
        rw [jdumpArr_nil, List.nil_append, skipWs_cons_ws _ _ (by decide), skipWs_indent,
            skipWs_cons_not_ws _ _ (by decide)]
        simp
      | cons y ys =>
        rw [jdumpArr_cons, List.cons_append, skipWs_cons_not_ws _ _ (by decide)]
        have hb2 : 1 + jsize y + jsizeArr ys ≤ g := by
          have e1 : jsizeArr (y :: ys) = 1 + jsize y + jsizeArr ys := rfl
          have e2 := jsize_pos x
          omega
        simp [IH2 y ys L W rest (acc ++ [x]) hb2, List.append_assoc]
    · -- P3
      intro k v ms L W rest acc hb
      have hv : jsize v ≤ g := by omega
      rw [parseObjItems]
      have hsw : skipWs ('\n' :: (jIndent L ++ (escString k ++ (':' :: ' ' ::
          (jdumpVal v L ++ (jdumpObj ms L ++ ('\n' :: (jIndent W ++ ('\x7d' :: rest))))))))) =
          '"' :: ((escBody k ++ ['"']) ++ (':' :: ' ' ::
            (jdumpVal v L ++ (jdumpObj ms L ++ ('\n' :: (jIndent W ++ ('\x7d' :: rest))))))) := by
        rw [skipWs_nl_indent]
        show skipWs (('"' :: (escBody k ++ ['"'])) ++ _) = _
        rw [List.cons_append, skipWs_cons_not_ws _ _ (by decide)]
      rw [hsw]
      have hx : ((escBody k ++ ['"']) ++ (':' :: ' ' ::
          (jdumpVal v L ++ (jdumpObj ms L ++ ('\n' :: (jIndent W ++ ('\x7d' :: rest))))))) =
          escBody k ++ ('"' :: (':' :: ' ' ::
            (jdumpVal v L ++ (jdumpObj ms L ++ ('\n' :: (jIndent W ++ ('\x7d' :: rest))))))) := by
        simp [List.append_assoc]
      rw [hx]
      have hstr := parseStr_escBody k (':' :: ' ' ::
        (jdumpVal v L ++ (jdumpObj ms L ++ ('\n' :: (jIndent W ++ ('\x7d' :: rest))))))
      have hIH1 := IH1 v L (jdumpObj ms L ++ ('\n' :: (jIndent W ++ ('\x7d' :: rest)))) hv
        (noDigitHead_objTail ms L W rest)
      cases ms with
      | nil =>
        simp only [jdumpObj_nil, List.nil_append] at hstr hIH1 ⊢
        simp [hstr, skipWs_cons, jWs, pv_space, hIH1, skipWs_indent]
      | cons m ms' =>
        match m with
        | (k', v') =>
          have hb3 : 1 + jsize v' + jsizeObj ms' ≤ g := by
            have e1 : jsizeObj ((k', v') :: ms') = 1 + jsize v' + jsizeObj ms' := rfl
            have e2 := jsize_pos v
            omega
          have hIH3 := IH3 k' v' ms' L W rest (acc ++ [(k, v)]) hb3
          rw [jdumpObj_cons] at hstr hIH1 ⊢
          simp only [List.append_assoc, List.cons_append] at hstr hIH1 hIH3
          simp [hstr, skipWs_cons, jWs, pv_space, hIH1, hIH3, List.append_assoc,
            skipWs_indent]

theorem escString_length (s : List Char) : (escString s).length = (escBody s).length + 2 := by
  simp [escString]

theorem intToChars_length_pos (n : Int) : 1 ≤ (intToChars n).length := by
  unfold intToChars
  by_cases hn : n < 0
  · rw [if_pos hn]; simp
  · rw [if_neg hn]
    obtain ⟨d, t, hdt, _⟩ := natToChars_head n.toNat
    rw [hdt]
    simp

theorem jdump_size_le : ∀ fuel : Nat,
    (∀ v : JVal, jsize v ≤ fuel → ∀ L, jsize v ≤ (jdumpVal v L).length) ∧
    (∀ xs : List JVal, jsizeArr xs ≤ fuel → ∀ L, jsizeArr xs ≤ (jdumpArr xs L).length) ∧
    (∀ ms : List (List Char × JVal), jsizeObj ms ≤ fuel → ∀ L,
      jsizeObj ms ≤ (jdumpObj ms L).length) := by
  intro fuel
  induction fuel with
  | zero =>
    refine ⟨?_, ?_, ?_⟩
    · intro v h L
      have := jsize_pos v
      omega
    · intro xs h L
      match xs with
      | [] => simp [jsizeArr]
      | x :: xs =>
        have e1 : jsizeArr (x :: xs) = 1 + jsize x + jsizeArr xs := rfl
        omega
    · intro ms h L
      match ms with
      | [] => simp [jsizeObj]
      | (k, v) :: ms =>
        have e1 : jsizeObj ((k, v) :: ms) = 1 + jsize v + jsizeObj ms := rfl
        omega
  | succ g IH =>
    obtain ⟨IH1, IH2, IH3⟩ := IH
    refine ⟨?_, ?_, ?_⟩
    · intro v hsz L
      match v with
      | JVal.null => show 1 ≤ (['n', 'u', 'l', 'l'] : List Char).length; simp
      | JVal.bool true => show 1 ≤ (['t', 'r', 'u', 'e'] : List Char).length; simp
      | JVal.bool false => show 1 ≤ (['f', 'a', 'l', 's', 'e'] : List Char).length; simp
      | JVal.num n => exact intToChars_length_pos n
      | JVal.str s =>
        show 1 ≤ (escString s).length
        rw [escString_length]
        omega
      | JVal.arr [] => show 1 ≤ (['[', ']'] : List Char).length; simp
      | JVal.arr (x :: xs) =>
        have e1 : jsize (JVal.arr (x :: xs)) = 1 + (1 + jsize x + jsizeArr xs) := rfl
        have hx := IH1 x (by omega) (L + 2)
        have hxs := IH2 xs (by omega) (L + 2)
        have hlen : (jdumpVal (JVal.arr (x :: xs)) L).length =
            2 + (L + 2) + (jdumpVal x (L + 2)).length + (jdumpArr xs (L + 2)).length +
              1 + L + 1 := by
          show (['[', '\n'] ++ jIndent (L + 2) ++ jdumpVal x (L + 2) ++
            jdumpArr xs (L + 2) ++ ['\n'] ++ jIndent L ++ [']']).length = _
          simp [jIndent]
          omega
        omega
      | JVal.obj [] => show 1 ≤ (['\x7b', '\x7d'] : List Char).length; simp
      | JVal.obj ((k, v') :: ms) =>
        have e1 : jsize (JVal.obj ((k, v') :: ms)) = 1 + (1 + jsize v' + jsizeObj ms) := rfl
        have hx := IH1 v' (by omega) (L + 2)
        have hms := IH3 ms (by omega) (L + 2)
        have hlen : (jdumpVal (JVal.obj ((k, v') :: ms)) L).length =
            2 + (L + 2) + (escString k).length + 2 + (jdumpVal v' (L + 2)).length +
              (jdumpObj ms (L + 2)).length + 1 + L + 1 := by
          show (['\x7b', '\n'] ++ jIndent (L + 2) ++ escString k ++ [':', ' '] ++
            jdumpVal v' (L + 2) ++ jdumpObj ms (L + 2) ++ ['\n'] ++ jIndent L ++
              ['\x7d']).length = _
          simp [jIndent]
          omega
        omega
    · intro xs hsz L
      match xs with
      | [] => simp [jsizeArr, jdumpArr_nil]
      | x :: xs =>
        have e1 : jsizeArr (x :: xs) = 1 + jsize x + jsizeArr xs := rfl
        have hx := IH1 x (by omega) L
        have hxs := IH2 xs (by omega) L
        have hlen : (jdumpArr (x :: xs) L).length =
            2 + L + (jdumpVal x L).length + (jdumpArr xs L).length := by
          rw [jdumpArr_cons]
          simp [jIndent]
          omega
        omega
    · intro ms hsz L
      match ms with
      | [] => simp [jsizeObj, jdumpObj_nil]
      | (k, v') :: ms =>
        have e1 : jsizeObj ((k, v') :: ms) = 1 + jsize v' + jsizeObj ms := rfl
        have hx := IH1 v' (by omega) L
        have hms := IH3 ms (by omega) L
        have hlen : (jdumpObj ((k, v') :: ms) L).length =
            2 + L + (escString k).length + 2 + (jdumpVal v' L).length +
              (jdumpObj ms L).length := by
          rw [jdumpObj_cons]
          simp [jIndent, escString]
          omega
        omega

theorem jloads_jdumps (v : JVal) : jloads (jdumps v) = some v := by
  have hb : jsize v ≤ (jdumpVal v 0).length + 1 := by
    have := (jdump_size_le (jsize v)).1 v le_rfl 0
    omega
  have h := (parse_jdump ((jdumpVal v 0).length + 1)).1 v 0 [] hb trivial
  rw [List.append_nil] at h
  show jloads (jdumpVal v 0) = some v
  unfold jloads
  rw [h]
  simp [skipWs]
/-! ## Trace algebra helpers -/

@[simp]
theorem invocationsOf_nil : invocationsOf [] = [] := rfl

@[simp]
theorem invocationsOf_append (a b : List Event) :
    invocationsOf (a ++ b) = invocationsOf a ++ invocationsOf b := by
  simp [invocationsOf, List.filterMap_append]

@[simp]
theorem invocationsOf_clear (tr : List Event) :
    invocationsOf (Event.clear :: tr) = invocationsOf tr := rfl

@[simp]
theorem invocationsOf_header (s : String) (tr : List Event) :
    invocationsOf (Event.header s :: tr) = invocationsOf tr := rfl

@[simp]
theorem invocationsOf_print (s : String) (tr : List Event) :
    invocationsOf (Event.print s :: tr) = invocationsOf tr := rfl

@[simp]
theorem invocationsOf_info (s : String) (tr : List Event) :
    invocationsOf (Event.info s :: tr) = invocationsOf tr := rfl

@[simp]
theorem invocationsOf_warn (s : String) (tr : List Event) :
    invocationsOf (Event.warn s :: tr) = invocationsOf tr := rfl

@[simp]
theorem invocationsOf_error (s : String) (tr : List Event) :
    invocationsOf (Event.error s :: tr) = invocationsOf tr := rfl

@[simp]
theorem invocationsOf_success (s : String) (tr : List Event) :
    invocationsOf (Event.success s :: tr) = invocationsOf tr := rfl

@[simp]
theorem invocationsOf_pause (tr : List Event) :
    invocationsOf (Event.pause :: tr) = invocationsOf tr := rfl

@[simp]
theorem invocationsOf_invoke (i : Invocation) (tr : List Event) :
    invocationsOf (Event.invoke i :: tr) = i :: invocationsOf tr := rfl

@[simp]
theorem invocationsOf_templateListing : invocationsOf templateListing = [] := rfl

@[simp]
theorem invocationsOf_sizeListing : invocationsOf sizeListing = [] := rfl

@[simp]
theorem invocationsOf_osListing : invocationsOf osListing = [] := rfl

@[simp]
theorem invocationsOf_display_template_menu : invocationsOf display_template_menu = [] := rfl

@[simp]
theorem invocationsOf_configListing (pgs : List PortGroup) :
    invocationsOf (pgs.map (fun pg =>
      Event.print ("  • " ++ pg.name ++ " (VLAN " ++ toString pg.vlanId ++ ") - " ++ pg.type))) = [] := by
  induction pgs with
  | nil => rfl
  | cons p ps ih =>
    simp only [List.map_cons, invocationsOf_print] at ih ⊢
    exact ih

@[simp]
theorem invocationsOf_hostListing (hs : List EsxiHost) :
    invocationsOf (hs.map (fun h =>
      Event.print ("  • " ++ h.hostname ++ ": " ++ h.vmotionIp))) = [] := by
  induction hs with
  | nil => rfl
  | cons p ps ih =>
    simp only [List.map_cons, invocationsOf_print] at ih ⊢
    exact ih

/-! ## Clean cancellation (claim C1) -/

/-- **C1.** For every deployment or configuration-mutating operation (VCSA
deploy, full infrastructure, datacenter, cluster, the six configuration
sub-areas, and both VM deployment variants), a confirmation response that
is not an explicit affirmative (`y`/`yes` after stripping and
lower-casing) produces zero backend invocations, a cancellation warning,
and a normal return to the owning menu. For the two VM flows the
hypotheses put the run at the confirmation gate (valid selectors and a
non-empty name). -/
theorem confirmation_gate_declines :
    (∀ (env : Env) (cfg : Config) (resp : String) (rest : List String),
      env.configExists = true → env.config = some cfg → confirm_action resp = false →
      cancelsCleanly (deploy_vcenter env (resp :: rest)) "VCSA deployment cancelled." rest) ∧
    (∀ (env : Env) (cfg : Config) (resp : String) (rest : List String),
      env.configExists = true → env.config = some cfg → confirm_action resp = false →
      cancelsCleanly (deploy_infrastructure env (resp :: rest))
        "Infrastructure deployment cancelled." rest) ∧
    (∀ (env : Env) (cfg : Config) (resp : String) (rest : List String),
      env.configExists = true → env.config = some cfg → confirm_action resp = false →
      cancelsCleanly (deploy_datacenter env (resp :: rest)) "Datacenter creation cancelled." rest) ∧
    (∀ (env : Env) (cfg : Config) (resp : String) (rest : List String),
      env.configExists = true → env.config = some cfg → confirm_action resp = false →
      cancelsCleanly (deploy_cluster env (resp :: rest)) "Cluster creation cancelled." rest) ∧
    (∀ (env : Env) (cfg : Config) (resp : String) (rest : List String),
      env.configExists = true → env.config = some cfg → confirm_action resp = false →
      cancelsCleanly (configure_vsan env (resp :: rest)) "vSAN configuration cancelled." rest) ∧
    (∀ (env : Env) (cfg : Config) (resp : String) (rest : List String),
      env.configExists = true → env.config = some cfg → confirm_action resp = false →
      cancelsCleanly (configure_vds env (resp :: rest)) "VDS configuration cancelled." rest) ∧
    (∀ (env : Env) (cfg : Config) (resp : String) (rest : List String),
      env.configExists = true → env.config = some cfg → confirm_action resp = false →
      cancelsCleanly (configure_vmotion env (resp :: rest)) "vMotion configuration cancelled." rest) ∧
    (∀ (env : Env) (cfg : Config) (resp : String) (rest : List String),
      env.configExists = true → env.config = some cfg → confirm_action resp = false →
      cancelsCleanly (configure_services env (resp :: rest)) "Service configuration cancelled." rest) ∧
    (∀ (env : Env) (cfg : Config) (resp : String) (rest : List String),
      env.configExists = true → env.config = some cfg → confirm_action resp = false →
      cancelsCleanly (configure_security env (resp :: rest)) "Security configuration cancelled." rest) ∧
    (∀ (env : Env) (resp : String) (rest : List String),
      confirm_action resp = false →
      cancelsCleanly (configure_all env (resp :: rest)) "Full configuration cancelled." rest) ∧
    (∀ (env : Env) (tmpl : TemplateEntry) (specs : SizeSpec)
      (rawChoice rawName rawSize rawIp rawMask rawGw rawTag resp : String) (rest : List String),
      ¬ pyUpper (get_input rawChoice) = "B" →
      VM_TEMPLATES.lookup (pyUpper (get_input rawChoice)) = some tmpl →
      ¬ get_input rawName = "" →
      VM_SIZES.lookup (get_input rawSize "Medium") = some specs →
      confirm_action resp = false →
      cancelsCleanly (deploy_vm_from_template env
        (rawChoice :: rawName :: rawSize :: rawIp :: rawMask :: rawGw :: rawTag :: resp :: rest))
        "VM deployment cancelled." rest) ∧
    (∀ (env : Env) (osE : OsTypeEntry) (specs : SizeSpec)
      (rawName rawOs rawSize rawIp rawTag resp : String) (rest : List String),
      ¬ get_input rawName = "" →
      OS_TYPES.lookup (get_input rawOs "1") = some osE →
      VM_SIZES.lookup (get_input rawSize "Small") = some specs →
      confirm_action resp = false →
      cancelsCleanly (deploy_standard_vm env
        (rawName :: rawOs :: rawSize :: rawIp :: rawTag :: resp :: rest))
        "VM creation cancelled." rest) := by
  refine ⟨?_, ?_, ?_, ?_, ?_, ?_, ?_, ?_, ?_, ?_, ?_, ?_⟩
  · intro env cfg resp rest hex hcfg hconf
    unfold deploy_vcenter load_config
    rw [hex, hcfg]
    simp [readLn, hconf, cancelsCleanly]
  · intro env cfg resp rest hex hcfg hconf
    unfold deploy_infrastructure load_config
    rw [hex, hcfg]
    simp [readLn, hconf, cancelsCleanly]
  · intro env cfg resp rest hex hcfg hconf
    unfold deploy_datacenter load_config
    rw [hex, hcfg]
    simp [readLn, hconf, cancelsCleanly]
  · intro env cfg resp rest hex hcfg hconf
    unfold deploy_cluster load_config
    rw [hex, hcfg]
    simp [readLn, hconf, cancelsCleanly]
  · intro env cfg resp rest hex hcfg hconf
    unfold configure_vsan load_config
    rw [hex, hcfg]
    simp [readLn, hconf, cancelsCleanly]
  · intro env cfg resp rest hex hcfg hconf
    unfold configure_vds load_config
    rw [hex, hcfg]
    simp [readLn, hconf, cancelsCleanly]
  · intro env cfg resp rest hex hcfg hconf
    unfold configure_vmotion load_config
    rw [hex, hcfg]
    simp [readLn, hconf, cancelsCleanly]
  · intro env cfg resp rest hex hcfg hconf
    unfold configure_services load_config
    rw [hex, hcfg]
    simp [readLn, hconf, cancelsCleanly]
  · intro env cfg resp rest hex hcfg hconf
    unfold configure_security load_config
    rw [hex, hcfg]
    simp [readLn, hconf, cancelsCleanly]
  · intro env resp rest hconf
    unfold configure_all
    simp [readLn, hconf, cancelsCleanly]
  · intro env tmpl specs rawChoice rawName rawSize rawIp rawMask rawGw rawTag resp rest
      hB htm hname hsize hconf
    unfold deploy_vm_from_template
    simp [readLn, hB, htm, hname, hsize, hconf, cancelsCleanly]
  · intro env osE specs rawName rawOs rawSize rawIp rawTag resp rest hname hos hsize hconf
    unfold deploy_standard_vm
    simp [readLn, hname, hos, hsize, hconf, cancelsCleanly]

/-- Witness for C1: a declined confirmation (`"n"`) at the VCSA gate and
at both VM deployment gates, at concrete inputs. -/
theorem confirmation_gate_declines_witness :
    cancelsCleanly (deploy_vcenter env0 ["n"]) "VCSA deployment cancelled." [] ∧
    cancelsCleanly (deploy_vm_from_template env0
      ["2", "vm01", "", "10.0.0.5", "", "", "Tag1", "nope"]) "VM deployment cancelled." [] ∧
    cancelsCleanly (deploy_standard_vm env0 ["web01", "1", "Small", "10.0.0.5", "t", "NO"])
      "VM creation cancelled." [] :=
  ⟨confirmation_gate_declines.1 env0 cfg0 "n" [] rfl rfl (by decide),
   confirmation_gate_declines.2.2.2.2.2.2.2.2.2.2.1 env0
     ⟨"Cribl", "template-cribl-stream", "Cribl Stream/Edge"⟩ ⟨4, 8, 100⟩
     "2" "vm01" "" "10.0.0.5" "" "" "Tag1" "nope" [] (by decide) (by decide) (by decide)
     (by decide) (by decide),
   confirmation_gate_declines.2.2.2.2.2.2.2.2.2.2.2 env0
     ⟨"RHEL", "rhel9_64Guest", "Red Hat Enterprise Linux"⟩ ⟨2, 4, 50⟩
     "web01" "1" "Small" "10.0.0.5" "t" "NO" [] (by decide) (by decide) (by decide)
     (by decide)⟩
/-! ## Validation aborts and their limits (claim C2) -/

/-- Counterexample for C2 as stated: in `deploy_standard_vm`, an *empty IP
address* does not abort — with every other field valid and the deployment
confirmed, exactly one backend invocation is still made. -/
theorem empty_ip_still_invokes :
    (invocationsOf (deploy_standard_vm env0 ["web01", "1", "Small", "", "t", "y", ""]).1).length
      = 1 := by
  rfl

/-- C2 as amended: the VM-name check and the selector checks do abort with
an error report, zero invocations, and a return to the calling menu —
but the IP address and tag name are not validated. -/
theorem validation_aborts :
    (∀ (env : Env) (rawName : String) (rest : List String),
      get_input rawName = "" →
      abortsCleanly (deploy_standard_vm env (rawName :: rest)) "VM name is required." rest) ∧
    (∀ (env : Env) (rawName rawOs : String) (rest : List String),
      ¬ get_input rawName = "" → OS_TYPES.lookup (get_input rawOs "1") = none →
      abortsCleanly (deploy_standard_vm env (rawName :: rawOs :: rest))
        "Invalid OS type selection." rest) ∧
    (∀ (env : Env) (osE : OsTypeEntry) (rawName rawOs rawSize : String) (rest : List String),
      ¬ get_input rawName = "" → OS_TYPES.lookup (get_input rawOs "1") = some osE →
      VM_SIZES.lookup (get_input rawSize "Small") = none →
      abortsCleanly (deploy_standard_vm env (rawName :: rawOs :: rawSize :: rest))
        "Invalid size selection." rest) ∧
    (∀ (env : Env) (rawChoice p : String) (rest : List String),
      ¬ pyUpper (get_input rawChoice) = "B" →
      VM_TEMPLATES.lookup (pyUpper (get_input rawChoice)) = none →
      abortsCleanly (deploy_vm_from_template env (rawChoice :: p :: rest))
        "Invalid template selection." rest) ∧
    (∀ (env : Env) (tmpl : TemplateEntry) (rawChoice rawName : String) (rest : List String),
      ¬ pyUpper (get_input rawChoice) = "B" →
      VM_TEMPLATES.lookup (pyUpper (get_input rawChoice)) = some tmpl →
      get_input rawName = "" →
      abortsCleanly (deploy_vm_from_template env (rawChoice :: rawName :: rest))
        "VM name is required." rest) ∧
    (∀ (env : Env) (tmpl : TemplateEntry) (rawChoice rawName rawSize : String)
      (rest : List String),
      ¬ pyUpper (get_input rawChoice) = "B" →
      VM_TEMPLATES.lookup (pyUpper (get_input rawChoice)) = some tmpl →
      ¬ get_input rawName = "" → VM_SIZES.lookup (get_input rawSize "Medium") = none →
      abortsCleanly (deploy_vm_from_template env (rawChoice :: rawName :: rawSize :: rest))
        "Invalid size selection." rest) := by
  refine ⟨?_, ?_, ?_, ?_, ?_, ?_⟩
  · intro env rawName rest hname
    unfold deploy_standard_vm
    simp [readLn, hname, abortsCleanly]
  · intro env rawName rawOs rest hname hos
    unfold deploy_standard_vm
    simp [readLn, hname, hos, abortsCleanly]
  · intro env osE rawName rawOs rawSize rest hname hos hsize
    unfold deploy_standard_vm
    simp [readLn, hname, hos, hsize, abortsCleanly]
  · intro env rawChoice p rest hB htm
    unfold deploy_vm_from_template
    simp [readLn, hB, htm, abortsCleanly, pauseThen]
  · intro env tmpl rawChoice rawName rest hB htm hname
    unfold deploy_vm_from_template
    simp [readLn, hB, htm, hname, abortsCleanly]
  · intro env tmpl rawChoice rawName rawSize rest hB htm hname hsize
    unfold deploy_vm_from_template
    simp [readLn, hB, htm, hname, hsize, abortsCleanly]

/-- Witness for the amended C2 at concrete inputs: empty name, invalid OS
type `"9"`, invalid size `"huge"`, invalid template `"7"`. -/
theorem validation_aborts_witness :
    abortsCleanly (deploy_standard_vm env0 ["   "]) "VM name is required." [] ∧
    abortsCleanly (deploy_standard_vm env0 ["web01", "9"]) "Invalid OS type selection." [] ∧
    abortsCleanly (deploy_standard_vm env0 ["web01", "1", "huge"]) "Invalid size selection." [] ∧
    abortsCleanly (deploy_vm_from_template env0 ["7", "p"]) "Invalid template selection." [] ∧
    abortsCleanly (deploy_vm_from_template env0 ["2", ""]) "VM name is required." [] ∧
    abortsCleanly (deploy_vm_from_template env0 ["2", "vm01", "huge"]) "Invalid size selection." [] :=
  ⟨validation_aborts.1 env0 "   " [] (by decide),
   validation_aborts.2.1 env0 "web01" "9" [] (by decide) (by decide),
   validation_aborts.2.2.1 env0 ⟨"RHEL", "rhel9_64Guest", "Red Hat Enterprise Linux"⟩
     "web01" "1" "huge" [] (by decide) (by decide) (by decide),
   validation_aborts.2.2.2.1 env0 "7" "p" [] (by decide) (by decide),
   validation_aborts.2.2.2.2.1 env0 ⟨"Cribl", "template-cribl-stream", "Cribl Stream/Edge"⟩
     "2" "" [] (by decide) (by decide) (by decide),
   validation_aborts.2.2.2.2.2 env0 ⟨"Cribl", "template-cribl-stream", "Cribl Stream/Edge"⟩
     "2" "vm01" "huge" [] (by decide) (by decide) (by decide) (by decide)⟩
/-! ## ASCII upper-casing and digit-keyed lookups -/

/-- Nothing upper-cases onto a character below `'A'` (such as a digit)
except that character itself. -/
theorem asciiUpper_eq_iff (c d : Char) (h1 : d.toNat < 65) :
    asciiUpper c = d ↔ c = d := by
  unfold asciiUpper
  split
  · rename_i hc
    simp only [Bool.and_eq_true, decide_eq_true_eq] at hc
    have hlo : 97 ≤ c.toNat := hc.1
    have hhi : c.toNat ≤ 122 := hc.2
    have hv : (c.toNat - 32).isValidChar := Or.inl (by omega)
    constructor
    · intro he
      have := charToNat_ofNat hv
      rw [he] at this
      omega
    · intro he
      subst he
      omega
  · exact Iff.rfl

/-- A string upper-cases onto a single-character key below `'A'` only if
it already equals that key. -/
theorem pyUpper_eq_digitKey (s k : String) (d : Char) (hk : k.data = [d])
    (h1 : d.toNat < 65) : pyUpper s = k ↔ s = k := by
  constructor
  · intro h
    apply String.ext
    rw [hk]
    have hdata : s.data.map asciiUpper = [d] := by
      simpa [pyUpper, hk] using congrArg String.data h
    cases hcs : s.data with
    | nil => rw [hcs] at hdata; simp at hdata
    | cons c t =>
      cases t with
      | nil =>
        rw [hcs] at hdata
        simp only [List.map_cons, List.map_nil, List.cons.injEq, and_true] at hdata
        rw [(asciiUpper_eq_iff c d h1).mp hdata]
      | cons c' t' => rw [hcs] at hdata; simp at hdata
  · intro h
    subst h
    have hu : asciiUpper d = d := (asciiUpper_eq_iff d d h1).mpr rfl
    apply String.ext
    simp [pyUpper, hk, hu]

theorem pyUpper_beq_digitKey (s k : String) (d : Char) (hk : k.data = [d])
    (h1 : d.toNat < 65) : (pyUpper s == k) = (s == k) := by
  by_cases h : s = k
  · rw [beq_iff_eq.mpr ((pyUpper_eq_digitKey s k d hk h1).mpr h), beq_iff_eq.mpr h]
  · have h2 : ¬ pyUpper s = k := fun hc => h ((pyUpper_eq_digitKey s k d hk h1).mp hc)
    rw [beq_eq_false_iff_ne.mpr h2, beq_eq_false_iff_ne.mpr h]

/-- Looking a string up in the digit-keyed `OS_TYPES` table is invariant
under upper-casing the string first: the table's keys are `"1"`–`"5"`,
and no character upper-cases onto a digit. -/
theorem os_types_lookup_pyUpper (s : String) :
    OS_TYPES.lookup (pyUpper s) = OS_TYPES.lookup s := by
  simp only [OS_TYPES, List.lookup]
  rw [pyUpper_beq_digitKey s "1" '1' rfl (by decide),
      pyUpper_beq_digitKey s "2" '2' rfl (by decide),
      pyUpper_beq_digitKey s "3" '3' rfl (by decide),
      pyUpper_beq_digitKey s "4" '4' rfl (by decide),
      pyUpper_beq_digitKey s "5" '5' rfl (by decide)]
/-! ## Catalog lookups (claims C3, C7, C8) -/

/-- Counterexample for C3 as stated: the size catalog is keyed by size
*names*, not numeric codes, so selector `"2"` fails the lookup (the
operation would abort with "Invalid size selection"), rather than
resolving to any size specification. -/
theorem size_selector_two_fails : sizeLookup "2" "Medium" = none := by rfl

/-- C3 as amended: the selector that resolves to
`{cpu := 4, memory_gb := 8, disk_gb := 100}` is the size *name*
`"Medium"` (also obtained by accepting the default). -/
theorem size_selector_medium_resolves :
    sizeLookup "Medium" "Medium" = some ⟨4, 8, 100⟩ ∧
    sizeLookup "" "Medium" = some ⟨4, 8, 100⟩ := by
  constructor <;> rfl

/-- **C7.** Catalog lookup normalization: the size selector is matched
against `VM_SIZES` verbatim (stripped and defaulted, but not
case-normalized — lower-case `"medium"` fails where `"Medium"`
resolves); the template selector is upper-cased before the lookup; and
the OS-type lookup, whose keys are the digits `"1"`–`"5"`, is
extensionally the same as an upper-cased lookup, because no character
upper-cases onto a digit. -/
theorem catalog_lookup_normalization :
    (∀ raw dflt, sizeLookup raw dflt = VM_SIZES.lookup (get_input raw dflt)) ∧
    sizeLookup "medium" "Medium" = none ∧
    sizeLookup "MEDIUM" "Medium" = none ∧
    sizeLookup "Medium" "Medium" = some ⟨4, 8, 100⟩ ∧
    (∀ raw, templateLookup raw = VM_TEMPLATES.lookup (pyUpper (get_input raw))) ∧
    (∀ raw, osLookup raw = OS_TYPES.lookup (pyUpper (get_input raw "1"))) := by
  refine ⟨fun raw dflt => rfl, rfl, rfl, rfl, fun raw => rfl, fun raw => ?_⟩
  rw [os_types_lookup_pyUpper]
  rfl

/-- **C8.** Template selector `"1"` resolves to the Splunk entry, whose
backend template identifier is exactly `template-splunk-enterprise`. -/
theorem template_selector_one :
    templateLookup "1" = some ⟨"Splunk", "template-splunk-enterprise", "Splunk Enterprise Server"⟩ ∧
    (templateLookup "1").map TemplateEntry.template = some "template-splunk-enterprise" := by
  constructor <;> rfl
/-- `invocationsOf` ignores the success-or-error report event in either
branch. -/
@[simp]
theorem invocationsOf_report_cons (c : Prop) [Decidable c] (s e : String) (tr : List Event) :
    invocationsOf ((if c then Event.success s else Event.error e) :: tr) = invocationsOf tr := by
  split <;> simp

/-- **C4.** Backend exit-status reporting, in both invocation modes (the
script-file mode of `deploy_vcenter` and the inline-command mode of
`deploy_datacenter`): a confirmed operation attempts exactly one backend
invocation; exit status `0` is reported as success and any nonzero status
as a failure message carrying the exit code; either way the run ends in
`Outcome.ret` — control returns to the menu rather than terminating. -/
theorem backend_exit_reporting (env : Env) (cfg : Config) (resp p : String)
    (rest : List String)
    (hex : env.configExists = true) (hcfg : env.config = some cfg)
    (hconf : confirm_action resp = true)
    (hscript : env.scriptExists "Deploy-VCSA.ps1" = true) :
    (invocationsOf (deploy_vcenter env (resp :: p :: rest)).1 =
        [Invocation.scriptFile "Deploy-VCSA.ps1" [("ConfigPath", CONFIG_FILE)]] ∧
      (deploy_vcenter env (resp :: p :: rest)).2 = Outcome.ret rest ∧
      (env.exitOf (Invocation.scriptFile "Deploy-VCSA.ps1" [("ConfigPath", CONFIG_FILE)]) = 0 →
        Event.success "VCSA deployment preparation completed!" ∈
          (deploy_vcenter env (resp :: p :: rest)).1) ∧
      (env.exitOf (Invocation.scriptFile "Deploy-VCSA.ps1" [("ConfigPath", CONFIG_FILE)]) ≠ 0 →
        Event.error ("VCSA deployment failed with exit code: " ++
            toString (env.exitOf
              (Invocation.scriptFile "Deploy-VCSA.ps1" [("ConfigPath", CONFIG_FILE)]))) ∈
          (deploy_vcenter env (resp :: p :: rest)).1)) ∧
    (invocationsOf (deploy_datacenter env (resp :: p :: rest)).1 =
        [Invocation.command datacenterCommand] ∧
      (deploy_datacenter env (resp :: p :: rest)).2 = Outcome.ret rest ∧
      (env.exitOf (Invocation.command datacenterCommand) = 0 →
        Event.success "Datacenter created successfully!" ∈
          (deploy_datacenter env (resp :: p :: rest)).1) ∧
      (env.exitOf (Invocation.command datacenterCommand) ≠ 0 →
        Event.error ("Datacenter creation failed with exit code: " ++
            toString (env.exitOf (Invocation.command datacenterCommand))) ∈
          (deploy_datacenter env (resp :: p :: rest)).1)) := by
  constructor
  · unfold deploy_vcenter load_config run_powershell
    rw [hex, hcfg]
    refine ⟨?_, ?_, ?_, ?_⟩
    · simp [readLn, pauseThen, hconf, hscript]
    · simp [readLn, pauseThen, hconf, hscript]
    · intro h0
      simp [readLn, pauseThen, hconf, hscript, h0]
    · intro h0
      simp [readLn, pauseThen, hconf, hscript, h0]
  · unfold deploy_datacenter load_config run_powershell_command
    rw [hex, hcfg]
    refine ⟨?_, ?_, ?_, ?_⟩
    · simp [readLn, pauseThen, hconf]
    · simp [readLn, pauseThen, hconf]
    · intro h0
      simp [readLn, pauseThen, hconf, h0]
    · intro h0
      simp [readLn, pauseThen, hconf, h0]

theorem backend_exit_reporting_witness :
    Event.success "VCSA deployment preparation completed!" ∈
      (deploy_vcenter env0 ["y", ""]).1 ∧
    Event.error ("Datacenter creation failed with exit code: " ++
        toString (envFail.exitOf (Invocation.command datacenterCommand))) ∈
      (deploy_datacenter envFail ["y", ""]).1 :=
  ⟨(backend_exit_reporting env0 cfg0 "y" "" [] rfl rfl (by decide) rfl).1.2.2.1 rfl,
   (backend_exit_reporting envFail cfg0 "y" "" [] rfl rfl (by decide) rfl).2.2.2.2 (by decide)⟩

/-- **C5.** Exit codes: a missing configuration file makes the program
print the configuration-not-found report and exit with status `1` before
any menu is shown; an unparsable configuration file likewise exits with
status `1` after the invalid-JSON report, with no menu body shown; and a
normal quit (`Q` from the main menu) exits with status `0`. -/
theorem exit_codes :
    (∀ (env : Env) (ins : List String), env.configExists = false →
      main' env ins =
        ([ .error ("Configuration file not found: " ++ CONFIG_FILE),
           .info "Please create a config.json file before running this tool." ],
         Outcome.exited 1)) ∧
    (∀ (env : Env) (ins : List String), env.configExists = true → env.config = none →
      main' env ins =
        ([ Event.clear, Event.header "ECST VMware Automation Tool",
           Event.error "Invalid JSON in configuration file" ],
         Outcome.exited 1)) ∧
    (∀ (env : Env) (cfg : Config) (raw : String), env.configExists = true →
      env.config = some cfg → pyUpper (get_input raw) = "Q" →
      (main' env [raw]).2 = Outcome.exited 0) := by
  refine ⟨?_, ?_, ?_⟩
  · intro env ins hm
    simp [main', hm]
  · intro env ins hx hc
    simp [main', mainLoop, display_main_menu, load_config, hx, hc]
  · intro env cfg raw hx hc hq
    have hqm : menuAction MenuState.Main "Q" = MenuCmd.quit := rfl
    simp [main', mainLoop, display_main_menu, load_config, readLn, hx, hc, hq, hqm]

theorem exit_codes_witness :
    main' envMissing [] =
      ([ .error ("Configuration file not found: " ++ CONFIG_FILE),
         .info "Please create a config.json file before running this tool." ],
       Outcome.exited 1) ∧
    main' envMalformed [] =
      ([ Event.clear, Event.header "ECST VMware Automation Tool",
         Event.error "Invalid JSON in configuration file" ],
       Outcome.exited 1) ∧
    (main' env0 ["q"]).2 = Outcome.exited 0 :=
  ⟨exit_codes.1 envMissing [] rfl,
   exit_codes.2.1 envMalformed [] rfl rfl,
   exit_codes.2.2 env0 cfg0 "q" rfl rfl (by decide)⟩
/-- **C6.** Round-trip of an unmodified configuration document: if the
configuration file's text parses to the document `d` (what `load_config`
reads), then serializing `d` the way `save_config` writes it and
re-parsing the saved text yields a document equal to the original. -/
theorem save_load_roundtrip (file : List Char) (d : JVal)
    (_h : jloads file = some d) : jloads (jdumps d) = some d :=
  jloads_jdumps d

set_option maxRecDepth 10000 in
theorem save_load_roundtrip_witness :
    jloads sampleText = some sampleDoc ∧
    jloads (jdumps sampleDoc) = some sampleDoc :=
  ⟨by rfl, save_load_roundtrip sampleText sampleDoc (by rfl)⟩
/-- **C9.** The menu state machine: the Quit token is dispatched only from
the Main menu; `B` pops each submenu back to its parent (and is invalid at
the Main menu); and on an unrecognized token every one of the four menu
loops reports "Invalid option. Please try again.", pauses, and re-runs the
very same loop on the remaining input — the menu state is unchanged. -/
theorem menu_state_machine :
    (∀ (s : MenuState) (t : String), menuAction s t = MenuCmd.quit → s = MenuState.Main) ∧
    (menuAction MenuState.Configure "B" = MenuCmd.back ∧
     menuAction MenuState.VMDeploy "B" = MenuCmd.back ∧
     menuAction MenuState.ConfigManagement "B" = MenuCmd.back ∧
     menuAction MenuState.Main "B" = MenuCmd.invalid) ∧
    (∀ (env : Env) (fuel : Nat) (rest : List String),
      handle_configure_menu env (fuel + 1) ("B" :: rest) =
        (display_configure_menu, Outcome.ret rest) ∧
      handle_vm_menu env (fuel + 1) ("B" :: rest) =
        (display_vm_menu, Outcome.ret rest) ∧
      handle_config_management_menu env (fuel + 1) ("B" :: rest) =
        (display_config_management_menu, Outcome.ret rest)) ∧
    (∀ (env : Env) (fuel : Nat) (t p : String) (rest : List String),
      menuAction MenuState.Configure (pyUpper (get_input t)) = MenuCmd.invalid →
      handle_configure_menu env (fuel + 1) (t :: p :: rest) =
        (display_configure_menu ++ [.error "Invalid option. Please try again.", .pause] ++
           (handle_configure_menu env fuel rest).1,
         (handle_configure_menu env fuel rest).2)) ∧
    (∀ (env : Env) (fuel : Nat) (t p : String) (rest : List String),
      menuAction MenuState.VMDeploy (pyUpper (get_input t)) = MenuCmd.invalid →
      handle_vm_menu env (fuel + 1) (t :: p :: rest) =
        (display_vm_menu ++ [.error "Invalid option. Please try again.", .pause] ++
           (handle_vm_menu env fuel rest).1,
         (handle_vm_menu env fuel rest).2)) ∧
    (∀ (env : Env) (fuel : Nat) (t p : String) (rest : List String),
      menuAction MenuState.ConfigManagement (pyUpper (get_input t)) = MenuCmd.invalid →
      handle_config_management_menu env (fuel + 1) (t :: p :: rest) =
        (display_config_management_menu ++
           [.error "Invalid option. Please try again.", .pause] ++
           (handle_config_management_menu env fuel rest).1,
         (handle_config_management_menu env fuel rest).2)) ∧
    (∀ (env : Env) (cfg : Config) (fuel : Nat) (t p : String) (rest : List String),
      env.configExists = true → env.config = some cfg →
      menuAction MenuState.Main (pyUpper (get_input t)) = MenuCmd.invalid →
      mainLoop env (fuel + 1) (t :: p :: rest) =
        ((display_main_menu env).1 ++ [.error "Invalid option. Please try again.", .pause] ++
           (mainLoop env fuel rest).1,
         (mainLoop env fuel rest).2)) := by
  refine ⟨?_, ⟨rfl, rfl, rfl, rfl⟩, ?_, ?_, ?_, ?_, ?_⟩
  · intro s t h
    cases s with
    | Main => rfl
    | Configure => simp only [menuAction] at h; split_ifs at h
    | VMDeploy => simp only [menuAction] at h; split_ifs at h
    | ConfigManagement => simp only [menuAction] at h; split_ifs at h
  · intro env fuel rest
    exact ⟨rfl, rfl, rfl⟩
  · intro env fuel t p rest h
    simp only [handle_configure_menu, readLn]
    rw [h]
    rfl
  · intro env fuel t p rest h
    simp only [handle_vm_menu, readLn]
    rw [h]
    rfl
  · intro env fuel t p rest h
    simp only [handle_config_management_menu, readLn]
    rw [h]
    rfl
  · intro env cfg fuel t p rest hx hc h
    have hd : display_main_menu env = ((display_main_menu env).1, some cfg) := by
      unfold display_main_menu load_config
      simp only [hx, hc, eq_self_iff_true, if_true]
    simp only [mainLoop, readLn]
    rw [hd, h]
    rfl

theorem menu_state_machine_witness :
    mainLoop env0 1 ["X", "", "Q"] =
      ((display_main_menu env0).1 ++ [.error "Invalid option. Please try again.", .pause] ++
         (mainLoop env0 0 ["Q"]).1,
       (mainLoop env0 0 ["Q"]).2) :=
  menu_state_machine.2.2.2.2.2.2 env0 cfg0 0 "X" "" ["Q"] rfl rfl rfl
/-- **C10.** The operator-supplied network parameters never reach the
backend: for `deploy_vm_from_template`, two runs that differ only in the
IP-address, netmask, and gateway answers (all other inputs and the
environment equal) produce identical backend invocation lists, and
likewise for `deploy_standard_vm` with its IP-address answer. -/
theorem network_params_not_invoked :
    (∀ (env : Env) (rawChoice rawName rawSize ip1 mask1 gw1 ip2 mask2 gw2 : String)
       (tl : List String),
      invocationsOf (deploy_vm_from_template env
          (rawChoice :: rawName :: rawSize :: ip1 :: mask1 :: gw1 :: tl)).1 =
        invocationsOf (deploy_vm_from_template env
          (rawChoice :: rawName :: rawSize :: ip2 :: mask2 :: gw2 :: tl)).1) ∧
    (∀ (env : Env) (rawName rawOs rawSize ip1 ip2 : String) (tl : List String),
      invocationsOf (deploy_standard_vm env
          (rawName :: rawOs :: rawSize :: ip1 :: tl)).1 =
        invocationsOf (deploy_standard_vm env
          (rawName :: rawOs :: rawSize :: ip2 :: tl)).1) := by
  constructor
  · intro env rawChoice rawName rawSize ip1 mask1 gw1 ip2 mask2 gw2 tl
    unfold deploy_vm_from_template
    simp only [readLn]
    by_cases hb : pyUpper (get_input rawChoice) = "B"
    · simp [hb]
    · simp only [hb, if_false]
      cases hT : VM_TEMPLATES.lookup (pyUpper (get_input rawChoice)) with
      | none => rfl
      | some tmpl =>
        by_cases hn : get_input rawName = ""
        · simp [hn]
        · simp only [hn, if_false]
          cases hS : VM_SIZES.lookup (get_input rawSize "Medium") with
          | none => rfl
          | some specs =>
            cases tl with
            | nil => rfl
            | cons rawTag tl2 =>
              cases tl2 with
              | nil => simp
              | cons resp tl3 =>
                by_cases hc : confirm_action resp
                · simp only [hc, if_true]
                  unfold load_config
                  cases hex : env.configExists
                  · simp
                  · cases hcf : env.config with
                    | none => simp
                    | some cfg =>
                      cases tl3 with
                      | nil => simp [run_powershell_command, pauseThen]
                      | cons q tl4 => simp [run_powershell_command, pauseThen]
                · simp [hc]
  · intro env rawName rawOs rawSize ip1 ip2 tl
    unfold deploy_standard_vm
    simp only [readLn]
    by_cases hn : get_input rawName = ""
    · simp [hn]
    · simp only [hn, if_false]
      cases hO : OS_TYPES.lookup (get_input rawOs "1") with
      | none => rfl
      | some os_type =>
        cases hS : VM_SIZES.lookup (get_input rawSize "Small") with
        | none => rfl
        | some specs =>
          cases tl with
          | nil => rfl
          | cons rawTag tl2 =>
            cases tl2 with
            | nil => simp
            | cons resp tl3 =>
              by_cases hc : confirm_action resp
              · simp only [hc, if_true]
                unfold load_config
                cases hex : env.configExists
                · simp
                · cases hcf : env.config with
                  | none => simp
                  | some cfg =>
                    cases tl3 with
                    | nil => simp [run_powershell_command, pauseThen]
                    | cons q tl4 => simp [run_powershell_command, pauseThen]
              · simp [hc]
